/-
  Verification of the audio analysis & scoring engine of this repository
  (src/lib/audioAnalysis.ts) against its natural-language specification.

  Embedding conventions:
  * PCM samples are modelled as rationals (`ℚ`); the JS `number` values that
    flow through transcendental functions (sqrt, log10) live in `ℝ`.
  * JS `number` semantics, including NaN and the infinities (which the code
    can produce via 0/0, x/0, Math.max of NaN, ...), are modelled by the
    inductive type `JSNum` below.  Code paths whose arithmetic provably never
    leaves the rationals (speech-rate pulse counting, pause counting, weight
    resolution) are modelled directly over `ℚ`/`ℤ`/`ℕ` so that they stay
    decidable; code paths that can go non-finite (volume, acceleration,
    overall score) are modelled over `JSNum`.
  * IEEE-754 rounding of individual double operations is out of scope: JS
    numbers are modelled as exact reals (plus NaN/±∞).
  * JS loops `for (i = a; i < b; i += h)` are modelled as folds/maps over
    `List.range` of the iteration count; JS bound arithmetic that can go
    negative is handled by truncated `ℕ` subtraction, which yields the same
    (empty) iteration spaces.
-/
import Mathlib

namespace AudioAnalysis

/-- Model of a JavaScript `number`: NaN, the two infinities, or a finite
value (modelled as an exact real). -/
inductive JSNum where
  | nan : JSNum
  | posInf : JSNum
  | negInf : JSNum
  | fin : ℝ → JSNum

namespace JSNum

/-- JS addition. -/
noncomputable def add : JSNum → JSNum → JSNum
  | nan, _ => nan
  | _, nan => nan
  | posInf, negInf => nan
  | negInf, posInf => nan
  | posInf, _ => posInf
  | _, posInf => posInf
  | negInf, _ => negInf
  | _, negInf => negInf
  | fin x, fin y => fin (x + y)

/-- JS subtraction. -/
noncomputable def sub : JSNum → JSNum → JSNum
  | nan, _ => nan
  | _, nan => nan
  | posInf, posInf => nan
  | negInf, negInf => nan
  | posInf, _ => posInf
  | negInf, _ => negInf
  | _, posInf => negInf
  | _, negInf => posInf
  | fin x, fin y => fin (x - y)

open Classical in
/-- JS multiplication (`Infinity * 0 = NaN`, sign rules for infinities). -/
noncomputable def mul : JSNum → JSNum → JSNum
  | nan, _ => nan
  | _, nan => nan
  | posInf, posInf => posInf
  | posInf, negInf => negInf
  | negInf, posInf => negInf
  | negInf, negInf => posInf
  | posInf, fin y => if y = 0 then nan else if 0 < y then posInf else negInf
  | fin x, posInf => if x = 0 then nan else if 0 < x then posInf else negInf
  | negInf, fin y => if y = 0 then nan else if 0 < y then negInf else posInf
  | fin x, negInf => if x = 0 then nan else if 0 < x then negInf else posInf
  | fin x, fin y => fin (x * y)

open Classical in
/-- JS division (`0/0 = NaN`, `x/0 = ±Infinity`, `x/±Infinity = 0`). -/
noncomputable def div : JSNum → JSNum → JSNum
  | nan, _ => nan
  | _, nan => nan
  | posInf, posInf => nan
  | posInf, negInf => nan
  | negInf, posInf => nan
  | negInf, negInf => nan
  | posInf, fin y => if 0 ≤ y then posInf else negInf
  | negInf, fin y => if 0 ≤ y then negInf else posInf
  | fin _, posInf => fin 0
  | fin _, negInf => fin 0
  | fin x, fin y =>
      if y = 0 then (if x = 0 then nan else if 0 < x then posInf else negInf)
      else fin (x / y)

open Classical in
/-- JS `Math.sqrt` (negative arguments give NaN). -/
noncomputable def sqrt : JSNum → JSNum
  | nan => nan
  | posInf => posInf
  | negInf => nan
  | fin x => if x < 0 then nan else fin (Real.sqrt x)

open Classical in
/-- JS `Math.log10` (`log10 0 = -Infinity`, negative arguments give NaN). -/
noncomputable def log10 : JSNum → JSNum
  | nan => nan
  | posInf => posInf
  | negInf => nan
  | fin x => if x < 0 then nan else if x = 0 then negInf else fin (Real.logb 10 x)

/-- JS `Math.max` (NaN-absorbing). -/
noncomputable def jmax : JSNum → JSNum → JSNum
  | nan, _ => nan
  | _, nan => nan
  | posInf, _ => posInf
  | _, posInf => posInf
  | negInf, b => b
  | a, negInf => a
  | fin x, fin y => fin (max x y)

/-- JS `Math.min` (NaN-absorbing). -/
noncomputable def jmin : JSNum → JSNum → JSNum
  | nan, _ => nan
  | _, nan => nan
  | negInf, _ => negInf
  | _, negInf => negInf
  | posInf, b => b
  | a, posInf => a
  | fin x, fin y => fin (min x y)

/-- JS `Math.round` (round half towards +∞; `round x = ⌊x + 1/2⌋`, which is
exactly Mathlib's `round`). -/
noncomputable def rnd : JSNum → JSNum
  | nan => nan
  | posInf => posInf
  | negInf => negInf
  | fin x => fin (round x : ℤ)

open Classical in
/-- JS `<=` comparison as a boolean: any comparison involving NaN is false. -/
noncomputable def leB : JSNum → JSNum → Bool
  | nan, _ => false
  | _, nan => false
  | negInf, _ => true
  | _, posInf => true
  | posInf, _ => false
  | fin _, negInf => false
  | fin x, fin y => decide (x ≤ y)

/-- JS `a >= b`. -/
noncomputable def geB (a b : JSNum) : Bool := leB b a

open Classical in
/-- JS `<` comparison as a boolean: any comparison involving NaN is false. -/
noncomputable def ltB : JSNum → JSNum → Bool
  | nan, _ => false
  | _, nan => false
  | posInf, _ => false
  | _, negInf => false
  | negInf, _ => true
  | fin _, posInf => true
  | fin x, fin y => decide (x < y)

/-- JS `a > b`. -/
noncomputable def gtB (a b : JSNum) : Bool := ltB b a

@[simp] lemma add_fin_fin (x y : ℝ) : add (fin x) (fin y) = fin (x + y) := rfl
@[simp] lemma add_nan_left (a : JSNum) : add nan a = nan := by cases a <;> rfl
@[simp] lemma add_nan_right (a : JSNum) : add a nan = nan := by cases a <;> rfl
@[simp] lemma sub_fin_fin (x y : ℝ) : sub (fin x) (fin y) = fin (x - y) := rfl
@[simp] lemma sub_nan_left (a : JSNum) : sub nan a = nan := by cases a <;> rfl
@[simp] lemma sub_nan_right (a : JSNum) : sub a nan = nan := by cases a <;> rfl
@[simp] lemma mul_fin_fin (x y : ℝ) : mul (fin x) (fin y) = fin (x * y) := rfl
@[simp] lemma mul_nan_left (a : JSNum) : mul nan a = nan := by cases a <;> rfl
@[simp] lemma mul_nan_right (a : JSNum) : mul a nan = nan := by cases a <;> rfl
@[simp] lemma div_nan_left (a : JSNum) : div nan a = nan := by cases a <;> rfl
@[simp] lemma div_nan_right (a : JSNum) : div a nan = nan := by cases a <;> rfl
@[simp] lemma sqrt_nan : sqrt nan = nan := rfl
@[simp] lemma log10_nan : log10 nan = nan := rfl
@[simp] lemma jmax_nan_left (a : JSNum) : jmax nan a = nan := by cases a <;> rfl
@[simp] lemma jmax_nan_right (a : JSNum) : jmax a nan = nan := by cases a <;> rfl
@[simp] lemma jmin_nan_left (a : JSNum) : jmin nan a = nan := by cases a <;> rfl
@[simp] lemma jmin_nan_right (a : JSNum) : jmin a nan = nan := by cases a <;> rfl
@[simp] lemma jmax_fin_fin (x y : ℝ) : jmax (fin x) (fin y) = fin (max x y) := rfl
@[simp] lemma jmin_fin_fin (x y : ℝ) : jmin (fin x) (fin y) = fin (min x y) := rfl
@[simp] lemma rnd_fin (x : ℝ) : rnd (fin x) = fin (round x : ℤ) := rfl
@[simp] lemma rnd_nan : rnd nan = nan := rfl
@[simp] lemma leB_nan_left (a : JSNum) : leB nan a = false := by cases a <;> rfl
@[simp] lemma leB_nan_right (a : JSNum) : leB a nan = false := by cases a <;> rfl
@[simp] lemma ltB_nan_left (a : JSNum) : ltB nan a = false := by cases a <;> rfl
@[simp] lemma ltB_nan_right (a : JSNum) : ltB a nan = false := by cases a <;> rfl
@[simp] lemma geB_nan_left (a : JSNum) : geB nan a = false := by simp [geB]
@[simp] lemma geB_nan_right (a : JSNum) : geB a nan = false := by simp [geB]
@[simp] lemma gtB_nan_left (a : JSNum) : gtB nan a = false := by simp [gtB]
@[simp] lemma gtB_nan_right (a : JSNum) : gtB a nan = false := by simp [gtB]

open Classical in
lemma leB_fin_fin (x y : ℝ) : leB (fin x) (fin y) = decide (x ≤ y) := by
  simp [leB]

open Classical in
@[simp] lemma geB_fin_fin (x y : ℝ) : geB (fin x) (fin y) = decide (y ≤ x) := by
  simp [geB, leB]

open Classical in
@[simp] lemma ltB_fin_fin (x y : ℝ) : ltB (fin x) (fin y) = decide (x < y) := by
  simp [ltB]

open Classical in
@[simp] lemma gtB_fin_fin (x y : ℝ) : gtB (fin x) (fin y) = decide (y < x) := by
  simp [gtB, ltB]

open Classical in
lemma div_fin_fin (x y : ℝ) (h : y ≠ 0) : div (fin x) (fin y) = fin (x / y) := by
  simp [div, h]

@[simp] lemma div_fin_zero_zero : div (fin 0) (fin 0) = nan := by
  simp [div]

open Classical in
lemma sqrt_fin (x : ℝ) (h : 0 ≤ x) : sqrt (fin x) = fin (Real.sqrt x) := by
  simp [sqrt, not_lt.mpr h]

open Classical in
lemma log10_fin (x : ℝ) (h : 0 < x) : log10 (fin x) = fin (Real.logb 10 x) := by
  simp [log10, not_lt.mpr h.le, h.ne']

end JSNum

/-- `thresholds: {min, ideal, max}` of a metric config entry
(src/lib/audioAnalysis.ts, `MetricConfig`). -/
structure Thresholds where
  min : ℚ
  ideal : ℚ
  max : ℚ

/-- A `MetricConfig` entry (src/lib/audioAnalysis.ts lines 26-35).  The
optional `method` field is irrelevant to every claim and omitted. -/
structure MetricConfig where
  id : String
  weight : ℚ
  thresholds : Thresholds

/-- The hardcoded default config returned by `getConfig` when nothing is
saved in localStorage (src/lib/audioAnalysis.ts lines 49-55). -/
def defaultConfig : List MetricConfig :=
  [ ⟨"volume", 40, ⟨-35, -15, 0⟩⟩,
    ⟨"speechRate", 40, ⟨90, 150, 220⟩⟩,
    ⟨"acceleration", 5, ⟨0, 50, 100⟩⟩,
    ⟨"responseTime", 5, ⟨2000, 200, 0⟩⟩,
    ⟨"pauseManagement", 10, ⟨0, 0, 2.71⟩⟩ ]

/-- `getMetricConfig(id)` (line 58): look up a metric in the resolved config
list.  The resolved list (`getConfig()`'s return value: the saved localStorage
blob, or `defaultConfig`) is threaded as the explicit parameter `cfg`. -/
def getMetricConfig (cfg : List MetricConfig) (id : String) : Option MetricConfig :=
  cfg.find? (fun m => m.id = id)

/-- A speech segment of the externally supplied VAD metrics.  The source
field `end` is a Lean keyword and is modelled as `stop`. -/
structure SpeechSegment where
  start : ℚ
  stop : ℚ
  duration : ℚ

/-- Externally supplied VAD metrics (src/lib/audioAnalysis.ts lines 13-20).
`isSpeaking`/`speechProbability` are never read by the analysis and omitted. -/
structure VADMetrics where
  speechSegments : List SpeechSegment
  totalSpeechTime : ℚ
  totalSilenceTime : ℚ
  speechRatio : ℚ

-- ===================== Volume analyzer =====================

/-- The running sum `sum += buf[i] * buf[i]` of `analyzeVolume` (lines
126-129); sums of squares of finite doubles stay finite, so the accumulation
is modelled directly in `ℚ`. -/
def sumSq (l : List ℚ) : ℚ := (l.map fun x => x * x).sum

/-- `VolumeResult` (lines 67-71); the constant `tag: "ENERGY"` is omitted. -/
structure VolumeResult where
  averageDb : JSNum
  score : JSNum

/-- The thresholds `analyzeVolume` resolves:
`getMetricConfig("volume") || { thresholds: { min: -35, ideal: -15, max: 0 } }`
(line 122). -/
def volumeThresholds (cfg : List MetricConfig) : Thresholds :=
  ((getMetricConfig cfg "volume").map (·.thresholds)).getD ⟨-35, -15, 0⟩

/-- Lines 126-133 of `analyzeVolume`: RMS of the whole buffer and conversion
to decibels, `db = 20 * log10(max(rms, 1e-10))`, in JS number semantics
(an empty buffer gives `rms = sqrt(0/0) = NaN`). -/
noncomputable def volumeDb (buf : List ℚ) : JSNum :=
  JSNum.mul (.fin 20)
    (JSNum.log10
      (JSNum.jmax (JSNum.sqrt (JSNum.div (.fin (sumSq buf)) (.fin buf.length)))
        (.fin 1e-10)))

/-- `analyzeVolume` (lines 121-150), in JS number semantics. -/
noncomputable def analyzeVolume (cfg : List MetricConfig) (buf : List ℚ) :
    VolumeResult :=
  let t := volumeThresholds cfg
  let db := volumeDb buf
  let score : JSNum :=
    if db.geB (.fin (t.ideal : ℝ)) then
      JSNum.sub (.fin 100)
        (JSNum.mul
          (JSNum.div (JSNum.sub db (.fin (t.ideal : ℝ)))
            (JSNum.sub (.fin (t.max : ℝ)) (.fin (t.ideal : ℝ))))
          (.fin 30))
    else if db.geB (.fin (t.min : ℝ)) then
      JSNum.add (.fin 70)
        (JSNum.mul
          (JSNum.div (JSNum.sub db (.fin (t.min : ℝ)))
            (JSNum.sub (.fin (t.ideal : ℝ)) (.fin (t.min : ℝ))))
          (.fin 30))
    else
      JSNum.jmax (.fin 0)
        (JSNum.mul (.fin 70)
          (JSNum.sub (.fin 1)
            (JSNum.div (JSNum.sub (.fin (t.min : ℝ)) db) (.fin 20))))
  { averageDb := JSNum.div (JSNum.rnd (JSNum.mul db (.fin 10))) (.fin 10),
    score := JSNum.jmin (.fin 100) (JSNum.jmax (.fin 0) (JSNum.rnd score)) }

-- Real-valued description of the volume computation on a non-empty buffer
-- (on which the JS computation provably stays finite; see the bridge lemmas).

/-- `sum/length` of `analyzeVolume` as an exact rational (agrees with the JS
value whenever the buffer is non-empty). -/
def meanSq (buf : List ℚ) : ℚ := sumSq buf / buf.length

/-- The dB reading of a non-empty buffer, as a real. -/
noncomputable def dbR (buf : List ℚ) : ℝ :=
  20 * Real.logb 10 (max (Real.sqrt (meanSq buf)) 1e-10)

open Classical in
/-- The piecewise-linear raw volume score (lines 136-143) as a real function
of the dB reading. -/
noncomputable def volumeScoreValR (t : Thresholds) (db : ℝ) : ℝ :=
  if (t.ideal : ℝ) ≤ db then 100 - (db - t.ideal) / ((t.max : ℝ) - t.ideal) * 30
  else if (t.min : ℝ) ≤ db then 70 + (db - t.min) / ((t.ideal : ℝ) - t.min) * 30
  else max 0 (70 * (1 - ((t.min : ℝ) - db) / 20))

/-- The final clamped integer volume score (line 147) as a function of the dB
reading. -/
noncomputable def volumeScoreIntR (t : Thresholds) (db : ℝ) : ℤ :=
  min 100 (max 0 (round (volumeScoreValR t db)))

lemma sumSq_nonneg (l : List ℚ) : 0 ≤ sumSq l := by
  apply List.sum_nonneg
  intro x hx
  rcases List.mem_map.1 hx with ⟨y, _, rfl⟩
  exact mul_self_nonneg y

lemma meanSq_nonneg (l : List ℚ) : 0 ≤ meanSq l := by
  unfold meanSq
  exact div_nonneg (sumSq_nonneg l) (by positivity)

/-- Bridge: on a non-empty buffer the JS dB computation is finite and equals
`dbR`. -/
lemma volumeDb_fin {buf : List ℚ} (h : buf ≠ []) :
    volumeDb buf = .fin (dbR buf) := by
  have hlen : (buf.length : ℝ) ≠ 0 :=
    Nat.cast_ne_zero.2 (List.length_pos.2 h).ne'
  have hms : ((sumSq buf : ℝ) / (buf.length : ℝ)) = ((meanSq buf : ℚ) : ℝ) := by
    unfold meanSq
    push_cast
    ring
  have hnn : (0 : ℝ) ≤ (sumSq buf : ℝ) / (buf.length : ℝ) := by
    rw [hms]
    exact_mod_cast meanSq_nonneg buf
  have hpos : (0 : ℝ) < max (Real.sqrt ((meanSq buf : ℚ) : ℝ)) 1e-10 :=
    lt_max_of_lt_right (by norm_num)
  unfold volumeDb
  rw [JSNum.div_fin_fin _ _ hlen, JSNum.sqrt_fin _ hnn, hms]
  rw [JSNum.jmax_fin_fin, JSNum.log10_fin _ hpos, JSNum.mul_fin_fin]
  rfl

/-- Bridge: on a non-empty buffer with non-degenerate resolved thresholds
(`ideal ≠ max` is only needed when the dB reading reaches `ideal`),
`analyzeVolume` is finite and given by the real-valued description. -/
lemma analyzeVolume_eq_real {cfg : List MetricConfig} {buf : List ℚ}
    (h : buf ≠ [])
    (hdeg : ((volumeThresholds cfg).ideal : ℝ) ≤ dbR buf →
      (volumeThresholds cfg).ideal ≠ (volumeThresholds cfg).max) :
    analyzeVolume cfg buf =
      { averageDb := .fin ((round (dbR buf * 10) : ℤ) / 10),
        score := .fin ((volumeScoreIntR (volumeThresholds cfg) (dbR buf) : ℤ)) } := by
  simp only [analyzeVolume]
  rw [volumeDb_fin h]
  simp only [JSNum.geB_fin_fin, decide_eq_true_eq]
  refine congrArg₂ VolumeResult.mk ?_ ?_
  · rw [JSNum.mul_fin_fin, JSNum.rnd_fin, JSNum.div_fin_fin _ _ (by norm_num)]
  · by_cases h1 : ((volumeThresholds cfg).ideal : ℝ) ≤ dbR buf
    · have hne : (((volumeThresholds cfg).max : ℝ) -
          ((volumeThresholds cfg).ideal : ℝ)) ≠ 0 := by
        refine sub_ne_zero.2 (fun hc => hdeg h1 ?_)
        exact_mod_cast hc.symm
      rw [if_pos h1]
      simp only [JSNum.sub_fin_fin]
      rw [JSNum.div_fin_fin _ _ hne]
      simp only [JSNum.mul_fin_fin, JSNum.sub_fin_fin, JSNum.rnd_fin,
        JSNum.jmax_fin_fin, JSNum.jmin_fin_fin]
      congr 1
      unfold volumeScoreIntR volumeScoreValR
      rw [if_pos h1]
      push_cast
      rfl
    · by_cases h2 : ((volumeThresholds cfg).min : ℝ) ≤ dbR buf
      · have hne : (((volumeThresholds cfg).ideal : ℝ) -
            ((volumeThresholds cfg).min : ℝ)) ≠ 0 := by
          have := lt_of_le_of_lt h2 (not_le.1 h1)
          exact sub_ne_zero.2 (ne_of_gt this)
        rw [if_neg h1, if_pos h2]
        simp only [JSNum.sub_fin_fin]
        rw [JSNum.div_fin_fin _ _ hne]
        simp only [JSNum.mul_fin_fin, JSNum.add_fin_fin, JSNum.rnd_fin,
          JSNum.jmax_fin_fin, JSNum.jmin_fin_fin]
        congr 1
        unfold volumeScoreIntR volumeScoreValR
        rw [if_neg h1, if_pos h2]
        push_cast
        rfl
      · rw [if_neg h1, if_neg h2]
        simp only [JSNum.sub_fin_fin]
        rw [JSNum.div_fin_fin _ _ (by norm_num : (20 : ℝ) ≠ 0)]
        simp only [JSNum.mul_fin_fin, JSNum.sub_fin_fin, JSNum.jmax_fin_fin,
          JSNum.rnd_fin, JSNum.jmin_fin_fin]
        congr 1
        unfold volumeScoreIntR volumeScoreValR
        rw [if_neg h1, if_neg h2]
        push_cast
        rfl

-- ===================== Speech-rate analyzer =====================
-- Pulse detection and WPM conversion never leave the rationals (all inputs
-- are finite and no division by zero is reachable with non-degenerate
-- thresholds), so this part is modelled computably over ℚ/ℤ.

/-- `frameSize = Math.floor(sampleRate * 0.02)` (line 154). -/
def frameSize20 (sr : ℕ) : ℕ := ⌊(sr : ℚ) * 0.02⌋₊

/-- `hopSize = Math.floor(frameSize / 2)` (line 155). -/
def hopOf (f : ℕ) : ℕ := f / 2

/-- Number of iterations of the JS loop `for (i = 0; i < len - f; i += hop)`:
`⌈(len - f)/hop⌉`, with truncated subtraction giving the empty loop whenever
`len ≤ f` (exactly as the JS bound `len - f ≤ 0` does).  For `hop = 0` the JS
loop would not terminate; this value is never used at such a sample rate. -/
def loopCount (len f hop : ℕ) : ℕ := ((len - f) + hop - 1) / hop

/-- Mean squared energy of the 20ms frame starting at sample `i`
(lines 160-164); indices are always in range, so `getD _ 0` is exact. -/
def frameEnergy (buf : List ℚ) (i n : ℕ) : ℚ :=
  ((List.range n).map (fun j => buf.getD (i + j) 0 * buf.getD (i + j) 0)).sum / n

/-- The frame-energy list of `detectSyllablesFromPeaks` (lines 157-165). -/
def energies (buf : List ℚ) (sr : ℕ) : List ℚ :=
  (List.range (loopCount buf.length (frameSize20 sr) (hopOf (frameSize20 sr)))).map
    (fun k => frameEnergy buf (k * hopOf (frameSize20 sr)) (frameSize20 sr))

/-- `Math.max(...energies)`.  All energies are non-negative, so seeding the
fold with 0 agrees with JS `Math.max` on every non-empty energy list; on the
empty list JS yields `-Infinity`, but the value is then never consulted (the
peak loop is empty). -/
def listMax (l : List ℚ) : ℚ := l.foldr max 0

/-- One step of the peak-scan loop of `detectSyllablesFromPeaks`
(lines 169-182): state is `(lastPeakIdx, peaks)`, initially `(-10, 0)`. -/
def peakStep (es : List ℚ) (threshold : ℚ) (st : ℤ × ℕ) (i : ℕ) : ℤ × ℕ :=
  if 1 ≤ i ∧ i + 1 < es.length ∧
      threshold < es.getD i 0 ∧ es.getD (i - 1) 0 < es.getD i 0 ∧
      es.getD (i + 1) 0 < es.getD i 0 ∧ (3 : ℤ) < (i : ℤ) - st.1 then
    ((i : ℤ), st.2 + 1)
  else st

/-- The peak count of `detectSyllablesFromPeaks` (the loop runs `i` from 1 to
`length - 2`; folding over all of `List.range` with the range guard in
`peakStep` is the same loop). -/
def countPeaks (es : List ℚ) (threshold : ℚ) : ℕ :=
  ((List.range es.length).foldl (peakStep es threshold) (-10, 0)).2

/-- `detectSyllablesFromPeaks` (lines 152-185). -/
def detectSyllablesFromPeaks (buf : List ℚ) (sr : ℕ) : ℕ :=
  countPeaks (energies buf sr) (listMax (energies buf sr) * 0.15)

/-- The `{energy, timeMs}` list of `detectSyllablesWithVAD` (lines 206-217):
the same frame energies, paired with `timeMs = (i / sampleRate) * 1000`. -/
def energyTimes (buf : List ℚ) (sr : ℕ) : List (ℚ × ℚ) :=
  (List.range (loopCount buf.length (frameSize20 sr) (hopOf (frameSize20 sr)))).map
    (fun k => (frameEnergy buf (k * hopOf (frameSize20 sr)) (frameSize20 sr),
               ((k * hopOf (frameSize20 sr) : ℕ) : ℚ) / (sr : ℚ) * 1000))

/-- `isWithinSpeech` (lines 220-224). -/
def isWithinSpeech (v : VADMetrics) (t : ℚ) : Bool :=
  v.speechSegments.any (fun s => decide (s.start ≤ t) && decide (t ≤ s.stop))

/-- One step of the VAD-restricted peak scan (lines 236-256): frames outside
every speech segment are skipped (`continue`) without touching the state. -/
def vadPeakStep (es : List (ℚ × ℚ)) (v : VADMetrics) (threshold : ℚ)
    (st : ℤ × ℕ) (i : ℕ) : ℤ × ℕ :=
  if 1 ≤ i ∧ i + 1 < es.length ∧ isWithinSpeech v (es.getD i (0, 0)).2 ∧
      threshold < (es.getD i (0, 0)).1 ∧
      (es.getD (i - 1) (0, 0)).1 < (es.getD i (0, 0)).1 ∧
      (es.getD (i + 1) (0, 0)).1 < (es.getD i (0, 0)).1 ∧
      (3 : ℤ) < (i : ℤ) - st.1 then
    ((i : ℤ), st.2 + 1)
  else st

/-- The peak count of `detectSyllablesWithVAD`. -/
def countVadPeaks (es : List (ℚ × ℚ)) (v : VADMetrics) (threshold : ℚ) : ℕ :=
  ((List.range es.length).foldl (vadPeakStep es v threshold) (-10, 0)).2

/-- `detectSyllablesWithVAD` (lines 191-261). -/
def detectSyllablesWithVAD (buf : List ℚ) (sr : ℕ) (v : VADMetrics) : ℕ :=
  if v.speechSegments.isEmpty then detectSyllablesFromPeaks buf sr
  else
    let es := energyTimes buf sr
    let speechEs := es.filter (fun e => isWithinSpeech v e.2)
    if speechEs.isEmpty then detectSyllablesFromPeaks buf sr
    else countVadPeaks es v (listMax (speechEs.map Prod.fst) * 0.15)

/-- The speech-rate estimation method recorded in the result. -/
inductive SpeechRateMethod where
  | energyPeaks : SpeechRateMethod
  | vadEnhanced : SpeechRateMethod
deriving DecidableEq

/-- `SpeechRateResult` (lines 73-78); the constant tag is omitted. -/
structure SpeechRateResult where
  wordsPerMinute : ℤ
  score : ℤ
  method : SpeechRateMethod
deriving DecidableEq

/-- Thresholds resolved by `analyzeSpeechRate` (line 268). -/
def speechRateThresholds (cfg : List MetricConfig) : Thresholds :=
  ((getMetricConfig cfg "speechRate").map (·.thresholds)).getD ⟨90, 150, 220⟩

/-- `wpm = durationSeconds > 0 ? Math.round(words / durationSeconds * 60) : 0`
with `words = syllables / 1.5` (lines 286-287). -/
def wpmOf (syllables : ℕ) (durationSeconds : ℚ) : ℤ :=
  if 0 < durationSeconds then round ((syllables : ℚ) / 1.5 / durationSeconds * 60)
  else 0

/-- The piecewise speech-rate score (lines 290-301), clamped (line 309). -/
def speechRateScore (t : Thresholds) (wpm : ℤ) : ℤ :=
  let raw : ℚ :=
    if t.min ≤ (wpm : ℚ) ∧ (wpm : ℚ) ≤ t.max then
      (if (wpm : ℚ) ≤ t.ideal then 70 + ((wpm : ℚ) - t.min) / (t.ideal - t.min) * 30
       else 100 - ((wpm : ℚ) - t.ideal) / (t.max - t.ideal) * 30)
    else if (wpm : ℚ) < t.min then max 0 (70 * ((wpm : ℚ) / t.min))
    else max 0 (70 * (1 - ((wpm : ℚ) - t.max) / 50))
  min 100 (max 0 (round raw))

/-- `analyzeSpeechRate` (lines 263-313).  `useVAD` holds iff VAD metrics are
supplied with a non-empty segment list; it selects the syllable detector, the
rate duration (`totalSpeechTime/1000` vs `bufferLength/sampleRate`) and the
reported method, exactly as in the source. -/
def analyzeSpeechRate (cfg : List MetricConfig) (buf : List ℚ) (sr : ℕ)
    (vad : Option VADMetrics) : SpeechRateResult :=
  let t := speechRateThresholds cfg
  match vad with
  | some v =>
      if v.speechSegments.isEmpty then
        let wpm := wpmOf (detectSyllablesFromPeaks buf sr) ((buf.length : ℚ) / sr)
        ⟨wpm, speechRateScore t wpm, .energyPeaks⟩
      else
        let wpm := wpmOf (detectSyllablesWithVAD buf sr v) (v.totalSpeechTime / 1000)
        ⟨wpm, speechRateScore t wpm, .vadEnhanced⟩
  | none =>
      let wpm := wpmOf (detectSyllablesFromPeaks buf sr) ((buf.length : ℚ) / sr)
      ⟨wpm, speechRateScore t wpm, .energyPeaks⟩

-- ===================== Latency (response time) analyzer =====================

/-- `ResponseTimeResult` (lines 90-94); the constant tag is omitted. -/
structure ResponseTimeResult where
  responseTimeMs : ℤ
  score : ℤ

/-- Thresholds resolved by `analyzeResponseTime` (line 390). -/
def responseTimeThresholds (cfg : List MetricConfig) : Thresholds :=
  ((getMetricConfig cfg "responseTime").map (·.thresholds)).getD ⟨2000, 200, 0⟩

/-- `calculateAdaptiveNoiseFloor` (lines 426-443): RMS of the first 100ms,
floor `max(0.005, rms*3)`, fallback `0.01` on an empty segment. -/
noncomputable def calculateAdaptiveNoiseFloor (buf : List ℚ) (sr : ℕ) : ℝ :=
  let frameSamples := ⌊(sr : ℚ) * 0.1⌋₊
  let noiseSegment := buf.take (min frameSamples buf.length)
  if noiseSegment.isEmpty then 0.01
  else max 0.005
    (Real.sqrt ((sumSq noiseSegment : ℝ) / (noiseSegment.length : ℝ)) * 3)

open Classical in
/-- Index of the first sample whose absolute value exceeds the floor
(the scan of lines 397-402); `none` when no sample exceeds it. -/
noncomputable def firstExceed (floor : ℝ) : List ℚ → Option ℕ
  | [] => none
  | x :: xs =>
      if floor < |(x : ℝ)| then some 0 else (firstExceed floor xs).map Nat.succ

/-- `analyzeResponseTime` (lines 389-421).  The field-name inversion is the
source's: `thresholds.min` is read as the maximum acceptable latency and
`thresholds.ideal` as the ideal latency.  When the scan finds no sample above
the noise floor, `firstSoundSample` keeps its initial value 0. -/
noncomputable def analyzeResponseTime (cfg : List MetricConfig) (buf : List ℚ)
    (sr : ℕ) : ResponseTimeResult :=
  let t := responseTimeThresholds cfg
  let maxMs := t.min
  let idealMs := t.ideal
  let floor := calculateAdaptiveNoiseFloor buf sr
  let firstSoundSample : ℕ := (firstExceed floor buf).getD 0
  let rt : ℤ := round (((firstSoundSample : ℚ) / (sr : ℚ)) * 1000)
  let raw : ℚ :=
    if (rt : ℚ) ≤ idealMs then 100
    else if (rt : ℚ) ≤ maxMs then
      100 - ((rt : ℚ) - idealMs) / (maxMs - idealMs) * 50
    else max 0 (50 * (1 - ((rt : ℚ) - maxMs) / 3000))
  ⟨rt, min 100 (max 0 (round raw))⟩

-- ===================== Pause analyzer =====================

/-- `PauseResult` (lines 96-100); the constant tag is omitted. -/
structure PauseResult where
  pauseRatio : ℚ
  score : ℤ
deriving DecidableEq

/-- Thresholds resolved by `analyzePauses` (line 450). -/
def pausesThresholds (cfg : List MetricConfig) : Thresholds :=
  ((getMetricConfig cfg "pauseManagement").map (·.thresholds)).getD ⟨0, 0, 2.71⟩

/-- `frameSize = Math.floor(sampleRate * 0.05)` (line 464). -/
def pauseFrameSize (sr : ℕ) : ℕ := ⌊(sr : ℚ) * 0.05⌋₊

/-- Mean absolute amplitude of the 50ms frame starting at sample `i`
(lines 471-475). -/
def frameAbsMean (buf : List ℚ) (i n : ℕ) : ℚ :=
  ((List.range n).map (fun j => |buf.getD (i + j) 0|)).sum / n

/-- `analyzePauses` (lines 445-499).  When VAD metrics are present the VAD
speech ratio is used; otherwise non-overlapping 50ms frames are classified
silent when their mean absolute amplitude is below 0.01. -/
def analyzePauses (cfg : List MetricConfig) (buf : List ℚ) (sr : ℕ)
    (vad : Option VADMetrics) : PauseResult :=
  let maxRatio := (pausesThresholds cfg).max
  let pauseRatio : ℚ :=
    match vad with
    | some v => 1 - v.speechRatio
    | none =>
        let fs := pauseFrameSize sr
        let total := loopCount buf.length fs fs
        let silent := ((List.range total).filter
          (fun k => decide (frameAbsMean buf (k * fs) fs < 0.01))).length
        (silent : ℚ) / max 1 (total : ℚ)
  let raw : ℚ :=
    if 0.1 < pauseRatio then max 0 (100 - (pauseRatio - 0.1) / maxRatio * 100)
    else 100
  ⟨((round (pauseRatio * 100) : ℤ) : ℚ) / 100, min 100 (max 0 (round raw))⟩

-- ===================== Dynamics (acceleration) analyzer =====================

/-- `AccelerationResult` (lines 80-88); the constant tag is omitted. -/
structure AccelerationResult where
  isAccelerating : Bool
  segment1Volume : JSNum
  segment2Volume : JSNum
  segment1Rate : ℤ
  segment2Rate : ℤ
  score : JSNum

/-- `midpointMs = totalDurationMs / 2` with
`totalDurationMs = (len / sampleRate) * 1000` (lines 331-332). -/
def accelMidpointMs (len sr : ℕ) : ℚ := ((len : ℚ) / (sr : ℚ)) * 1000 / 2

/-- `segments1 = speechSegments.filter(s => s.end <= midpointMs)` (line 334). -/
def accelSegs1 (v : VADMetrics) (mid : ℚ) : List SpeechSegment :=
  v.speechSegments.filter (fun s => decide (s.stop ≤ mid))

/-- The selection `speechSegments.filter(s => s.start >= midpointMs)`
(line 335), before the timestamp shift. -/
def accelSegs2Sel (v : VADMetrics) (mid : ℚ) : List SpeechSegment :=
  v.speechSegments.filter (fun s => decide (mid ≤ s.start))

/-- `segments2` (lines 335-336): the second-half selection with timestamps
shifted left by `midpointMs`. -/
def accelSegs2 (v : VADMetrics) (mid : ℚ) : List SpeechSegment :=
  (accelSegs2Sel v mid).map
    (fun s => { s with start := s.start - mid, stop := s.stop - mid })

/-- `vadSegment1` (lines 338-347): sub-VAD metrics of the first half, or
`none` when no segment ends by the midpoint. -/
def accelVad1 (v : VADMetrics) (mid : ℚ) : Option VADMetrics :=
  let segs := accelSegs1 v mid
  if segs.isEmpty then none
  else
    let total := (segs.map (·.duration)).sum
    some { speechSegments := segs, totalSpeechTime := total,
           totalSilenceTime := mid - total, speechRatio := total / mid }

/-- `vadSegment2` (lines 349-358). -/
def accelVad2 (v : VADMetrics) (mid : ℚ) : Option VADMetrics :=
  let segs := accelSegs2 v mid
  if segs.isEmpty then none
  else
    let total := (segs.map (·.duration)).sum
    some { speechSegments := segs, totalSpeechTime := total,
           totalSilenceTime := mid - total, speechRatio := total / mid }

/-- `analyzeAcceleration` (lines 315-387).  The resolved acceleration config
(line 320) is never read afterwards in the source and is omitted. -/
noncomputable def analyzeAcceleration (cfg : List MetricConfig) (buf : List ℚ)
    (sr : ℕ) (vad : Option VADMetrics) : AccelerationResult :=
  let midpoint := buf.length / 2
  let segment1 := buf.take midpoint
  let segment2 := buf.drop midpoint
  let vad1 : Option VADMetrics :=
    match vad with
    | some v => accelVad1 v (accelMidpointMs buf.length sr)
    | none => none
  let vad2 : Option VADMetrics :=
    match vad with
    | some v => accelVad2 v (accelMidpointMs buf.length sr)
    | none => none
  let vol1 := analyzeVolume cfg segment1
  let vol2 := analyzeVolume cfg segment2
  let rate1 := analyzeSpeechRate cfg segment1 sr vad1
  let rate2 := analyzeSpeechRate cfg segment2 sr vad2
  let volumeIncrease := JSNum.sub vol2.averageDb vol1.averageDb
  let rateIncrease : ℤ := rate2.wordsPerMinute - rate1.wordsPerMinute
  let isAccelerating := volumeIncrease.gtB (.fin 0) || decide (5 < rateIncrease)
  let accelerationFactor := JSNum.jmax (.fin 0)
    (JSNum.add (JSNum.mul volumeIncrease (.fin 2))
      (.fin ((rateIncrease : ℝ) * 0.5)))
  { isAccelerating := isAccelerating,
    segment1Volume := JSNum.div (JSNum.rnd (JSNum.mul vol1.averageDb (.fin 10))) (.fin 10),
    segment2Volume := JSNum.div (JSNum.rnd (JSNum.mul vol2.averageDb (.fin 10))) (.fin 10),
    segment1Rate := rate1.wordsPerMinute,
    segment2Rate := rate2.wordsPerMinute,
    score := JSNum.jmin (.fin 100)
      (JSNum.jmax (.fin 0) (JSNum.rnd (JSNum.add (.fin 50) accelerationFactor))) }

-- ===================== Score aggregator =====================

/-- One entry of the `audio_metric_settings` localStorage record as read by
`calculateOverallScore` (lines 529-533): `{enabled, weight}`. -/
structure MetricSettingEntry where
  enabled : Bool
  weight : ℚ

/-- The parsed `audio_metric_settings` record with its five metric keys. -/
structure MetricSettings where
  volume : MetricSettingEntry
  speechRate : MetricSettingEntry
  acceleration : MetricSettingEntry
  responseTime : MetricSettingEntry
  pauses : MetricSettingEntry

/-- `Object.values(metricSettings)` (line 523). -/
def settingsEntries (ms : MetricSettings) : List MetricSettingEntry :=
  [ms.volume, ms.speechRate, ms.acceleration, ms.responseTime, ms.pauses]

/-- `enabledTotal` (lines 523-525): sum of the weights of the enabled
entries (`Number(weight) || 0` is the identity on rational weights). -/
def enabledTotal (ms : MetricSettings) : ℚ :=
  ((settingsEntries ms).filter (·.enabled)).foldl (fun s e => s + e.weight) 0

/-- The resolved weight record of `calculateOverallScore`. -/
structure Weights where
  volume : ℚ
  speechRate : ℚ
  acceleration : ℚ
  responseTime : ℚ
  pauses : ℚ
deriving DecidableEq

/-- The initial default weights (lines 509-515). -/
def defaultWeights : Weights := ⟨0.40, 0.40, 0.05, 0.05, 0.10⟩

/-- The weight-resolution logic of `calculateOverallScore` (lines 508-569):
`settings = some ms` models a present (and well-formed) parsed
`audio_metric_settings` blob; `settings = none` models its absence, which
falls back to the legacy `metricConfig` list `cfg`.  Note that when the new
settings are present with `enabledTotal > 0` the weights are each divided by
100 — NOT renormalized by their total — and when `enabledTotal ≤ 0` the
hardcoded default weights are kept. -/
def resolveWeights (settings : Option MetricSettings)
    (cfg : List MetricConfig) : Weights :=
  match settings with
  | some ms =>
      if 0 < enabledTotal ms then
        { volume := if ms.volume.enabled then ms.volume.weight / 100 else 0,
          speechRate := if ms.speechRate.enabled then ms.speechRate.weight / 100 else 0,
          acceleration := if ms.acceleration.enabled then ms.acceleration.weight / 100 else 0,
          responseTime := if ms.responseTime.enabled then ms.responseTime.weight / 100 else 0,
          pauses := if ms.pauses.enabled then ms.pauses.weight / 100 else 0 }
      else defaultWeights
  | none =>
      let ov := ((getMetricConfig cfg "volume").map (·.weight)).getD 40
      let osr := ((getMetricConfig cfg "speechRate").map (·.weight)).getD 40
      let oa := ((getMetricConfig cfg "acceleration").map (·.weight)).getD 5
      let ort := ((getMetricConfig cfg "responseTime").map (·.weight)).getD 5
      let opm := ((getMetricConfig cfg "pauseManagement").map (·.weight)).getD 10
      let oldTotal := ov + osr + oa + ort + opm
      if oldTotal = 0 then ⟨0, 0, 0, 0, 0⟩
      else ⟨ov / oldTotal, osr / oldTotal, oa / oldTotal, ort / oldTotal,
            opm / oldTotal⟩

/-- `calculateOverallScore` (lines 501-579): `round` of the weighted sum of
the five per-metric scores.  No clamping is applied to the result. -/
noncomputable def calculateOverallScore (settings : Option MetricSettings)
    (cfg : List MetricConfig) (volume : VolumeResult)
    (speechRate : SpeechRateResult) (acceleration : AccelerationResult)
    (responseTime : ResponseTimeResult) (pauses : PauseResult) : JSNum :=
  let w := resolveWeights settings cfg
  JSNum.rnd
    (JSNum.add
      (JSNum.add
        (JSNum.add
          (JSNum.add (JSNum.mul volume.score (.fin (w.volume : ℝ)))
            (JSNum.mul (.fin ((speechRate.score : ℤ) : ℝ)) (.fin (w.speechRate : ℝ))))
          (JSNum.mul acceleration.score (.fin (w.acceleration : ℝ))))
        (JSNum.mul (.fin ((responseTime.score : ℤ) : ℝ)) (.fin (w.responseTime : ℝ))))
      (JSNum.mul (.fin ((pauses.score : ℤ) : ℝ)) (.fin (w.pauses : ℝ))))

/-- The three feedback buckets. -/
inductive Feedback where
  | excellent : Feedback
  | good : Feedback
  | poor : Feedback
deriving DecidableEq

/-- `getEmotionalFeedback` (lines 581-585), on a JS number score (a NaN
overall score fails both comparisons and yields `poor`). -/
noncomputable def getEmotionalFeedback (score : JSNum) : Feedback :=
  if score.geB (.fin 70) then .excellent
  else if score.geB (.fin 40) then .good
  else .poor

/-- `AnalysisResult` (lines 102-117); the optional `normalization` record is
absent on the modelled path. -/
structure AnalysisResult where
  overallScore : JSNum
  emotionalFeedback : Feedback
  volume : VolumeResult
  speechRate : SpeechRateResult
  acceleration : AccelerationResult
  responseTime : ResponseTimeResult
  pauses : PauseResult

/-- `analyzeAudioAsync` (lines 589-648) invoked without a device id, so the
optional LUFS-normalization pre-stage (whose module lives outside the core
analysis file) is skipped and the analyzers run on the raw buffer, exactly as
in the source's `deviceId === undefined` path.  The resolved config stores
(legacy `metricConfig` list and optional `audio_metric_settings` record) are
threaded as parameters.  The function is total: the source has no validation
and no error path. -/
noncomputable def analyzeAudio (cfg : List MetricConfig)
    (settings : Option MetricSettings) (buf : List ℚ) (sr : ℕ)
    (vad : Option VADMetrics) : AnalysisResult :=
  let volume := analyzeVolume cfg buf
  let speechRate := analyzeSpeechRate cfg buf sr vad
  let acceleration := analyzeAcceleration cfg buf sr vad
  let responseTime := analyzeResponseTime cfg buf sr
  let pauses := analyzePauses cfg buf sr vad
  let overallScore :=
    calculateOverallScore settings cfg volume speechRate acceleration
      responseTime pauses
  { overallScore := overallScore,
    emotionalFeedback := getEmotionalFeedback overallScore,
    volume := volume, speechRate := speechRate, acceleration := acceleration,
    responseTime := responseTime, pauses := pauses }

-- ===================== General helper lemmas =====================

lemma sumSq_replicate_zero (n : ℕ) : sumSq (List.replicate n 0) = 0 := by
  simp [sumSq]

lemma noiseFloor_pos (buf : List ℚ) (sr : ℕ) :
    0 < calculateAdaptiveNoiseFloor buf sr := by
  simp only [calculateAdaptiveNoiseFloor]
  split
  · norm_num
  · exact lt_max_of_lt_left (by norm_num)

lemma firstExceed_eq_none {floor : ℝ} {l : List ℚ}
    (h : ∀ x ∈ l, |(x : ℝ)| ≤ floor) : firstExceed floor l = none := by
  induction l with
  | nil => rfl
  | cons x xs ih =>
      rw [firstExceed, if_neg (not_lt.2 (h x (List.mem_cons_self x xs)))]
      rw [ih (fun y hy => h y (List.mem_cons_of_mem x hy))]
      rfl

-- ===================== C1 =====================

/-- C1, counterexample.  The claim states that on a buffer in which no sample
exceeds the adaptive noise floor (e.g. a 2-second 48kHz silent buffer) the
analyzer returns `responseTimeMs` equal to the full buffer duration (2000ms).
In the code, `firstSoundSample` is initialised to 0 and left untouched when
the scan finds nothing, so the analyzer returns `responseTimeMs = 0`. -/
lemma responseTime_silent_aux (buf : List ℚ) (sr : ℕ)
    (h : ∀ x ∈ buf, |(x : ℝ)| ≤ calculateAdaptiveNoiseFloor buf sr) :
    (analyzeResponseTime defaultConfig buf sr).responseTimeMs = 0 ∧
      (analyzeResponseTime defaultConfig buf sr).score = 100 := by
  have ht : responseTimeThresholds defaultConfig = ⟨2000, 200, 0⟩ := rfl
  simp only [analyzeResponseTime, firstExceed_eq_none h, Option.getD_none,
    Nat.cast_zero, ht]
  norm_num

lemma silent_below_floor (n sr : ℕ) : ∀ x ∈ List.replicate n (0 : ℚ),
    |(x : ℝ)| ≤ calculateAdaptiveNoiseFloor (List.replicate n (0 : ℚ)) sr := by
  intro x hx
  rcases List.eq_of_mem_replicate hx with rfl
  simpa using (noiseFloor_pos (List.replicate n (0 : ℚ)) sr).le

/-- C1, counterexample: on the claim's own concrete instance — a 2-second
48kHz all-zeros buffer with default thresholds — `analyzeResponseTime`
returns `responseTimeMs = 0`, not 2000 as claimed: the code initialises
`firstSoundSample` to 0 and leaves it untouched when no sample exceeds the
noise floor. -/
theorem c1_silent_responseTime_counterexample :
    (analyzeResponseTime defaultConfig (List.replicate 96000 (0 : ℚ)) 48000).responseTimeMs
      = 0 ∧ (0 : ℤ) ≠ 2000 :=
  ⟨(responseTime_silent_aux _ _ (silent_below_floor 96000 48000)).1, by decide⟩

/-- C1 (amended): whenever no sample's absolute value exceeds the adaptively
estimated noise floor, `analyzeResponseTime` (with the default thresholds)
returns `responseTimeMs = 0` — the initial value of the first-sound index —
and consequently the maximal score 100, not the full buffer duration and a
low score. -/
theorem responseTime_all_below_floor (buf : List ℚ) (sr : ℕ)
    (h : ∀ x ∈ buf, |(x : ℝ)| ≤ calculateAdaptiveNoiseFloor buf sr) :
    (analyzeResponseTime defaultConfig buf sr).responseTimeMs = 0 ∧
      (analyzeResponseTime defaultConfig buf sr).score = 100 :=
  responseTime_silent_aux buf sr h

/-- Witness for `responseTime_all_below_floor` at a concrete silent buffer. -/
theorem responseTime_all_below_floor_witness :
    (∀ x ∈ List.replicate 5 (0 : ℚ),
      |(x : ℝ)| ≤ calculateAdaptiveNoiseFloor (List.replicate 5 (0 : ℚ)) 100) ∧
    (analyzeResponseTime defaultConfig (List.replicate 5 (0 : ℚ)) 100).responseTimeMs = 0 ∧
    (analyzeResponseTime defaultConfig (List.replicate 5 (0 : ℚ)) 100).score = 100 := by
  have h : ∀ x ∈ List.replicate 5 (0 : ℚ),
      |(x : ℝ)| ≤ calculateAdaptiveNoiseFloor (List.replicate 5 (0 : ℚ)) 100 := by
    intro x hx
    rcases List.eq_of_mem_replicate hx with rfl
    simpa using (noiseFloor_pos (List.replicate 5 (0 : ℚ)) 100).le
  exact ⟨h, responseTime_all_below_floor (List.replicate 5 (0 : ℚ)) 100 h⟩

-- ===================== C10 =====================

/-- C10: in `analyzeAcceleration`'s split of the VAD speech segments, a
segment that straddles the midpoint (`start < midpointMs < end`) fails both
filters (`end <= midpointMs` and `start >= midpointMs`), so it is assigned to
neither half: it is absent from both halves' segment selections and hence
from the sub-VAD metrics built from them. -/
theorem accel_straddling_segment_excluded (buf : List ℚ) (sr : ℕ)
    (v : VADMetrics) (s : SpeechSegment) (hs : s ∈ v.speechSegments)
    (h1 : s.start < accelMidpointMs buf.length sr)
    (h2 : accelMidpointMs buf.length sr < s.stop) :
    s ∉ accelSegs1 v (accelMidpointMs buf.length sr) ∧
    s ∉ accelSegs2Sel v (accelMidpointMs buf.length sr) ∧
    (∀ v1, accelVad1 v (accelMidpointMs buf.length sr) = some v1 →
      s ∉ v1.speechSegments) := by
  set mid := accelMidpointMs buf.length sr with hmid
  have hA : s ∉ accelSegs1 v mid := by
    intro hmem
    have := (List.mem_filter.1 hmem).2
    rw [decide_eq_true_eq] at this
    exact absurd this (not_le.2 h2)
  refine ⟨hA, ?_, ?_⟩
  · intro hmem
    have := (List.mem_filter.1 hmem).2
    rw [decide_eq_true_eq] at this
    exact absurd this (not_le.2 h1)
  · intro v1 hv1
    simp only [accelVad1] at hv1
    split at hv1
    · exact absurd hv1 (by simp)
    · cases hv1
      exact hA

/-- Witness for `accel_straddling_segment_excluded` at a concrete segment
straddling the midpoint of a 100ms buffer. -/
theorem accel_straddling_segment_excluded_witness :
    ((⟨40, 60, 20⟩ : SpeechSegment) ∈
        (⟨[⟨40, 60, 20⟩], 20, 80, 1/5⟩ : VADMetrics).speechSegments) ∧
    ((⟨40, 60, 20⟩ : SpeechSegment).start <
        accelMidpointMs (List.replicate 10 (0 : ℚ)).length 100) ∧
    (accelMidpointMs (List.replicate 10 (0 : ℚ)).length 100 <
        (⟨40, 60, 20⟩ : SpeechSegment).stop) ∧
    ((⟨40, 60, 20⟩ : SpeechSegment) ∉
      accelSegs1 (⟨[⟨40, 60, 20⟩], 20, 80, 1/5⟩ : VADMetrics)
        (accelMidpointMs (List.replicate 10 (0 : ℚ)).length 100)) := by
  have hs : (⟨40, 60, 20⟩ : SpeechSegment) ∈
      (⟨[⟨40, 60, 20⟩], 20, 80, 1/5⟩ : VADMetrics).speechSegments := by
    simp
  have h1 : (⟨40, 60, 20⟩ : SpeechSegment).start <
      accelMidpointMs (List.replicate 10 (0 : ℚ)).length 100 := by
    norm_num [accelMidpointMs]
  have h2 : accelMidpointMs (List.replicate 10 (0 : ℚ)).length 100 <
      (⟨40, 60, 20⟩ : SpeechSegment).stop := by
    norm_num [accelMidpointMs]
  exact ⟨hs, h1, h2,
    (accel_straddling_segment_excluded (List.replicate 10 (0 : ℚ)) 100
      ⟨[⟨40, 60, 20⟩], 20, 80, 1/5⟩ ⟨40, 60, 20⟩ hs h1 h2).1⟩

-- ===================== C2 =====================

lemma analyzeVolume_nil (cfg : List MetricConfig) :
    analyzeVolume cfg [] = ⟨.nan, .nan⟩ := by
  simp [analyzeVolume, volumeDb, sumSq]

lemma empty_buffer_nan_aux (cfg : List MetricConfig)
    (settings : Option MetricSettings) (sr : ℕ) (vad : Option VADMetrics) :
    (analyzeAudio cfg settings [] sr vad).volume.score = .nan ∧
    (analyzeAudio cfg settings [] sr vad).overallScore = .nan ∧
    (analyzeAudio cfg settings [] sr vad).emotionalFeedback = .poor := by
  simp only [analyzeAudio, calculateOverallScore, getEmotionalFeedback,
    analyzeVolume_nil]
  simp

/-- C2, counterexample: called on an empty buffer (at 48kHz, with the default
config stores), the main entry point does not fail: it completes and returns
a result whose volume score and overall score are NaN. -/
theorem c2_empty_buffer_counterexample :
    (analyzeAudio defaultConfig none [] 48000 none).volume.score = .nan ∧
    (analyzeAudio defaultConfig none [] 48000 none).overallScore = .nan :=
  ⟨(empty_buffer_nan_aux defaultConfig none 48000 none).1,
   (empty_buffer_nan_aux defaultConfig none 48000 none).2.1⟩

/-- C2 (amended): the main entry point performs no input validation at all.
For every config store, settings record, sample rate and VAD input, a call on
the empty buffer completes normally and returns a result whose volume score
and overall score are NaN (and whose feedback bucket is consequently
"poor"), instead of failing fast with a descriptive error. -/
theorem analyzeAudio_empty_no_failfast (cfg : List MetricConfig)
    (settings : Option MetricSettings) (sr : ℕ) (vad : Option VADMetrics) :
    (analyzeAudio cfg settings [] sr vad).volume.score = .nan ∧
    (analyzeAudio cfg settings [] sr vad).overallScore = .nan ∧
    (analyzeAudio cfg settings [] sr vad).emotionalFeedback = .poor :=
  empty_buffer_nan_aux cfg settings sr vad

-- ===================== C5 =====================

lemma logb_ten_epsilon : Real.logb 10 1e-10 = -10 := by
  have h : (1e-10 : ℝ) = ((10 : ℝ) ^ (10 : ℕ))⁻¹ := by norm_num
  rw [h, Real.logb_inv, Real.logb_pow,
    Real.logb_self_eq_one (by norm_num : (1 : ℝ) < 10)]
  norm_num

lemma dbR_replicate_zero (n : ℕ) : dbR (List.replicate n (0 : ℚ)) = -200 := by
  unfold dbR meanSq
  rw [sumSq_replicate_zero]
  have h1 : ((0 : ℚ) / ((List.replicate n (0 : ℚ)).length : ℚ)) = 0 :=
    zero_div _
  rw [h1]
  push_cast
  rw [Real.sqrt_zero]
  rw [max_eq_right (by norm_num : (0 : ℝ) ≤ 1e-10), logb_ten_epsilon]
  norm_num

lemma sumSq_replicate_one (n : ℕ) : sumSq (List.replicate n (1 : ℚ)) = n := by
  simp [sumSq]

lemma dbR_replicate_one (n : ℕ) (hn : 0 < n) :
    dbR (List.replicate n (1 : ℚ)) = 0 := by
  unfold dbR meanSq
  rw [sumSq_replicate_one]
  have h1 : ((n : ℚ) / ((List.replicate n (1 : ℚ)).length : ℚ)) = 1 := by
    rw [List.length_replicate]
    exact div_self (by exact_mod_cast hn.ne')
  rw [h1]
  push_cast
  rw [Real.sqrt_one, max_eq_left (by norm_num : (1e-10 : ℝ) ≤ 1),
    Real.logb_one]
  norm_num

/-- The degenerate volume config used in the C5 counterexample:
`max == ideal` (both 0). -/
def degenerateVolumeConfig : List MetricConfig := [⟨"volume", 40, ⟨-35, 0, 0⟩⟩]

/-- C5, counterexample: with degenerate resolved thresholds
(`min=-35, ideal=0, max=0`, so `max == ideal`), `analyzeVolume` on the
buffer `[1]` (whose dB reading is exactly 0 = ideal) does NOT fall back to
the built-in default thresholds: it evaluates `(db-ideal)/(max-ideal) = 0/0`
and returns a NaN score, while the built-in defaults would have produced the
finite score 70 on the same buffer. -/
theorem c5_degenerate_thresholds_counterexample :
    (analyzeVolume degenerateVolumeConfig [1]).score = .nan ∧
    (analyzeVolume defaultConfig [1]).score = .fin 70 := by
  have hdb : dbR [1] = 0 := dbR_replicate_one 1 one_pos
  constructor
  · have hth : volumeThresholds degenerateVolumeConfig = ⟨-35, 0, 0⟩ := rfl
    simp only [analyzeVolume, hth,
      volumeDb_fin (by simp : ([1] : List ℚ) ≠ []), hdb]
    norm_num
  · have hth : volumeThresholds defaultConfig = ⟨-35, -15, 0⟩ := rfl
    rw [analyzeVolume_eq_real (by simp) (by rw [hth]; intro _; decide)]
    rw [hth, hdb]
    have h70 : volumeScoreIntR ⟨-35, -15, 0⟩ 0 = 70 := by
      unfold volumeScoreIntR volumeScoreValR
      norm_num
    rw [h70]
    norm_num

/-- C5 (amended): `analyzeVolume` applies no fallback for degenerate
thresholds — it uses them as resolved.  Whenever the resolved thresholds have
`max == ideal` and the buffer's dB reading equals `ideal` exactly, the score
is NaN (division 0/0), i.e. a division-by-zero-derived non-finite result
reaches the caller.  (With `max == ideal` and a dB reading strictly above
`ideal` the score is `-Infinity` before clamping and 0 after; `ideal == min`
alone never divides by zero, since the branch that divides by `ideal - min`
is unreachable then.) -/
theorem volume_degenerate_thresholds_nan (cfg : List MetricConfig)
    (buf : List ℚ) (h : buf ≠ [])
    (hdeg : (volumeThresholds cfg).max = (volumeThresholds cfg).ideal)
    (hdb : dbR buf = ((volumeThresholds cfg).ideal : ℝ)) :
    (analyzeVolume cfg buf).score = .nan := by
  simp only [analyzeVolume, volumeDb_fin h, hdb, hdeg]
  norm_num

/-- Witness for `volume_degenerate_thresholds_nan` at the concrete degenerate
config and the buffer `[1]`. -/
theorem volume_degenerate_thresholds_nan_witness :
    (([1] : List ℚ) ≠ []) ∧
    ((volumeThresholds degenerateVolumeConfig).max =
      (volumeThresholds degenerateVolumeConfig).ideal) ∧
    (dbR [1] = ((volumeThresholds degenerateVolumeConfig).ideal : ℝ)) ∧
    (analyzeVolume degenerateVolumeConfig [1]).score = .nan := by
  have h1 : ([1] : List ℚ) ≠ [] := by simp
  have h2 : (volumeThresholds degenerateVolumeConfig).max =
      (volumeThresholds degenerateVolumeConfig).ideal := by decide
  have h3 : dbR [1] = ((volumeThresholds degenerateVolumeConfig).ideal : ℝ) := by
    have hdb : dbR [1] = 0 := dbR_replicate_one 1 one_pos
    have hid : (volumeThresholds degenerateVolumeConfig).ideal = 0 := rfl
    rw [hdb, hid]
    norm_num
  exact ⟨h1, h2, h3,
    volume_degenerate_thresholds_nan degenerateVolumeConfig [1] h1 h2 h3⟩

/-- The resolved default weights: 40/40/5/5/10 normalized by their total. -/
lemma resolveWeights_default :
    resolveWeights none defaultConfig = ⟨2/5, 2/5, 1/20, 1/20, 1/10⟩ := by
  have h1 : getMetricConfig defaultConfig "volume" =
      some ⟨"volume", 40, ⟨-35, -15, 0⟩⟩ := rfl
  have h2 : getMetricConfig defaultConfig "speechRate" =
      some ⟨"speechRate", 40, ⟨90, 150, 220⟩⟩ := rfl
  have h3 : getMetricConfig defaultConfig "acceleration" =
      some ⟨"acceleration", 5, ⟨0, 50, 100⟩⟩ := rfl
  have h4 : getMetricConfig defaultConfig "responseTime" =
      some ⟨"responseTime", 5, ⟨2000, 200, 0⟩⟩ := rfl
  have h5 : getMetricConfig defaultConfig "pauseManagement" =
      some ⟨"pauseManagement", 10, ⟨0, 0, 2.71⟩⟩ := rfl
  simp only [resolveWeights, h1, h2, h3, h4, h5, Option.map_some',
    Option.getD_some]
  norm_num

-- ===================== C4 =====================

/-- An `audio_metric_settings` record with every metric disabled (enabled
weight total 0). -/
def allDisabledSettings : MetricSettings :=
  ⟨⟨false, 100⟩, ⟨false, 100⟩, ⟨false, 100⟩, ⟨false, 100⟩, ⟨false, 100⟩⟩

/-- A legacy `metricConfig` list in which every metric has weight 0. -/
def zeroWeightConfig : List MetricConfig :=
  [ ⟨"volume", 0, ⟨-35, -15, 0⟩⟩,
    ⟨"speechRate", 0, ⟨90, 150, 220⟩⟩,
    ⟨"acceleration", 0, ⟨0, 50, 100⟩⟩,
    ⟨"responseTime", 0, ⟨2000, 200, 0⟩⟩,
    ⟨"pauseManagement", 0, ⟨0, 0, 2.71⟩⟩ ]

/-- C4, counterexample: with an `audio_metric_settings` record in which all
five metrics are disabled (enabled weight total 0) and all per-metric scores
equal to 80, the aggregator returns 80 — the default 40/40/5/5/10 weights are
silently kept — not 0 as the claim requires. -/
theorem c4_zero_enabled_total_counterexample :
    calculateOverallScore (some allDisabledSettings) defaultConfig
        ⟨.fin 0, .fin 80⟩ ⟨80, 80, .energyPeaks⟩
        ⟨false, .fin 0, .fin 0, 0, 0, .fin 80⟩ ⟨0, 80⟩ ⟨0, 80⟩ = .fin 80 ∧
      JSNum.fin 80 ≠ JSNum.fin 0 := by
  have hw : resolveWeights (some allDisabledSettings) defaultConfig =
      defaultWeights := rfl
  constructor
  · simp only [calculateOverallScore, hw, defaultWeights]
    simp only [JSNum.mul_fin_fin, JSNum.add_fin_fin, JSNum.rnd_fin]
    norm_num
  · simp only [ne_eq, JSNum.fin.injEq]
    norm_num

/-- C4 (amended): the "overall is 0 on zero total weight" policy holds only
on the legacy path: when no `audio_metric_settings` record exists and the
legacy `metricConfig` list resolves a total weight of 0, the aggregator
returns an overall score of 0 for all finite per-metric scores.  (When the
new settings record is present with an enabled total of 0, the code instead
falls back to the default 40/40/5/5/10 weights — see the counterexample.) -/
theorem overall_zero_on_legacy_zero_total (a : JSNum) (s1 : ℝ) (w s2 : ℤ)
    (m : SpeechRateMethod) (b : Bool) (c d : JSNum) (e f : ℤ) (s3 : ℝ)
    (g s4 : ℤ) (p : ℚ) (s5 : ℤ) :
    calculateOverallScore none zeroWeightConfig ⟨a, .fin s1⟩ ⟨w, s2, m⟩
      ⟨b, c, d, e, f, .fin s3⟩ ⟨g, s4⟩ ⟨p, s5⟩ = .fin 0 := by
  have h1 : getMetricConfig zeroWeightConfig "volume" =
      some ⟨"volume", 0, ⟨-35, -15, 0⟩⟩ := rfl
  have h2 : getMetricConfig zeroWeightConfig "speechRate" =
      some ⟨"speechRate", 0, ⟨90, 150, 220⟩⟩ := rfl
  have h3 : getMetricConfig zeroWeightConfig "acceleration" =
      some ⟨"acceleration", 0, ⟨0, 50, 100⟩⟩ := rfl
  have h4 : getMetricConfig zeroWeightConfig "responseTime" =
      some ⟨"responseTime", 0, ⟨2000, 200, 0⟩⟩ := rfl
  have h5 : getMetricConfig zeroWeightConfig "pauseManagement" =
      some ⟨"pauseManagement", 0, ⟨0, 0, 2.71⟩⟩ := rfl
  have hw : resolveWeights none zeroWeightConfig = ⟨0, 0, 0, 0, 0⟩ := by
    simp only [resolveWeights, h1, h2, h3, h4, h5, Option.map_some',
      Option.getD_some]
    norm_num
  simp only [calculateOverallScore, hw]
  simp only [JSNum.mul_fin_fin, JSNum.add_fin_fin, JSNum.rnd_fin]
  norm_num

-- ===================== C6 =====================

/-- Concrete 7-sample buffer (at 100Hz) with one detectable energy pulse. -/
def pulseBuf : List ℚ := [0, 0, 0, 1, 1/2, 0, 0]

/-- VAD metrics whose single speech segment (1000ms-1100ms) lies entirely
beyond the 70ms buffer, so no energy frame falls inside it; total speech time
500ms. -/
def farVad : VADMetrics := ⟨[⟨1000, 1100, 100⟩], 500, 0, 0⟩

/-- C6, counterexample: with VAD metrics whose segments overlap no energy
frame, pulse detection does fall back to the whole-buffer scan (1 pulse
either way), but the WPM conversion still uses `totalSpeechTime/1000 = 0.5s`
— giving 80 WPM — instead of `bufferLength/sampleRate = 0.07s`, which would
give 571 WPM as the claim requires. -/
theorem c6_vad_fallback_duration_counterexample :
    detectSyllablesFromPeaks pulseBuf 100 = 1 ∧
    detectSyllablesWithVAD pulseBuf 100 farVad = 1 ∧
    (analyzeSpeechRate defaultConfig pulseBuf 100 (some farVad)).wordsPerMinute = 80 ∧
    (analyzeSpeechRate defaultConfig pulseBuf 100 none).wordsPerMinute = 571 ∧
    (80 : ℤ) ≠ 571 := by
  have hE : energies pulseBuf 100 = [0, 0, 1/2, 5/8, 1/8] := by
    norm_num [energies, loopCount, frameSize20, hopOf, frameEnergy, pulseBuf,
      List.range_succ, List.getD]
  have hdet : detectSyllablesFromPeaks pulseBuf 100 = 1 := by
    rw [detectSyllablesFromPeaks, hE]
    norm_num [countPeaks, peakStep, List.range_succ, List.getD, listMax]
  have hT : energyTimes pulseBuf 100 =
      [(0, 0), (0, 10), (1/2, 20), (5/8, 30), (1/8, 40)] := by
    norm_num [energyTimes, loopCount, frameSize20, hopOf, frameEnergy, pulseBuf,
      List.range_succ, List.getD]
  have hflt : ((energyTimes pulseBuf 100).filter
      (fun e => isWithinSpeech farVad e.2)).isEmpty = true := by
    rw [hT]
    norm_num [isWithinSpeech, farVad, List.filter]
  have hvdet : detectSyllablesWithVAD pulseBuf 100 farVad = 1 := by
    rw [detectSyllablesWithVAD]
    rw [if_neg (by decide : ¬farVad.speechSegments.isEmpty = true)]
    simp only [hflt, if_true]
    exact hdet
  refine ⟨hdet, hvdet, ?_, ?_, by decide⟩
  · simp only [analyzeSpeechRate]
    rw [if_neg (by decide : ¬farVad.speechSegments.isEmpty = true)]
    simp only [hvdet]
    norm_num [wpmOf, farVad]
  · simp only [analyzeSpeechRate, hdet]
    norm_num [wpmOf, pulseBuf, round_eq]

/-- C6 (amended): when non-empty speech-activity segments are supplied but no
20ms energy frame's time offset falls inside any segment, only the pulse
detection falls back to the whole-buffer scan; the rate duration used for the
WPM conversion remains `totalSpeechTime/1000` (not
`bufferLength/sampleRate`), and the reported method remains `vad-enhanced`. -/
theorem speechRate_vad_no_overlap (cfg : List MetricConfig) (buf : List ℚ)
    (sr : ℕ) (v : VADMetrics) (h1 : v.speechSegments.isEmpty = false)
    (h2 : ((energyTimes buf sr).filter (fun e => isWithinSpeech v e.2)).isEmpty
      = true) :
    analyzeSpeechRate cfg buf sr (some v) =
      ⟨wpmOf (detectSyllablesFromPeaks buf sr) (v.totalSpeechTime / 1000),
       speechRateScore (speechRateThresholds cfg)
         (wpmOf (detectSyllablesFromPeaks buf sr) (v.totalSpeechTime / 1000)),
       .vadEnhanced⟩ := by
  simp only [analyzeSpeechRate, detectSyllablesWithVAD, h1, h2, if_true,
    Bool.false_eq_true, if_false]

/-- Witness for `speechRate_vad_no_overlap` at the concrete buffer and VAD
metrics of the counterexample. -/
theorem speechRate_vad_no_overlap_witness :
    (farVad.speechSegments.isEmpty = false) ∧
    (((energyTimes pulseBuf 100).filter
        (fun e => isWithinSpeech farVad e.2)).isEmpty = true) ∧
    analyzeSpeechRate defaultConfig pulseBuf 100 (some farVad) =
      ⟨wpmOf (detectSyllablesFromPeaks pulseBuf 100) (farVad.totalSpeechTime / 1000),
       speechRateScore (speechRateThresholds defaultConfig)
         (wpmOf (detectSyllablesFromPeaks pulseBuf 100) (farVad.totalSpeechTime / 1000)),
       .vadEnhanced⟩ := by
  have hT : energyTimes pulseBuf 100 =
      [(0, 0), (0, 10), (1/2, 20), (5/8, 30), (1/8, 40)] := by
    norm_num [energyTimes, loopCount, frameSize20, hopOf, frameEnergy, pulseBuf,
      List.range_succ, List.getD]
  have hflt : ((energyTimes pulseBuf 100).filter
      (fun e => isWithinSpeech farVad e.2)).isEmpty = true := by
    rw [hT]
    norm_num [isWithinSpeech, farVad, List.filter]
  exact ⟨by decide, hflt,
    speechRate_vad_no_overlap defaultConfig pulseBuf 100 farVad (by decide) hflt⟩

-- ===================== C7 =====================

/-- C7: the aggregator computes `round` of the weighted score sum — with the
default stores resolving to the normalized default weights
40%/40%/5%/5%/10% — and `getEmotionalFeedback` buckets by the fixed
breakpoints 70 and 40; in particular all five scores equal to 80 give an
overall of exactly 80 (bucket "excellent"). -/
theorem overall_weighted_round_and_buckets :
    (∀ (a : JSNum) (s1 : ℝ) (w s2 : ℤ) (m : SpeechRateMethod) (b : Bool)
        (c d : JSNum) (e f : ℤ) (s3 : ℝ) (g s4 : ℤ) (p : ℚ) (s5 : ℤ),
      calculateOverallScore none defaultConfig ⟨a, .fin s1⟩ ⟨w, s2, m⟩
          ⟨b, c, d, e, f, .fin s3⟩ ⟨g, s4⟩ ⟨p, s5⟩ =
        .fin ((round (s1 * (2/5) + (s2 : ℝ) * (2/5) + s3 * (1/20) +
          (s4 : ℝ) * (1/20) + (s5 : ℝ) * (1/10)) : ℤ))) ∧
    (∀ s : ℝ, getEmotionalFeedback (.fin s) =
      if 70 ≤ s then .excellent else if 40 ≤ s then .good else .poor) ∧
    (calculateOverallScore none defaultConfig ⟨.fin 0, .fin 80⟩
        ⟨80, 80, .energyPeaks⟩ ⟨false, .fin 0, .fin 0, 0, 0, .fin 80⟩
        ⟨0, 80⟩ ⟨0, 80⟩ = .fin 80 ∧
      getEmotionalFeedback (.fin 80) = .excellent) := by
  have hw : resolveWeights none defaultConfig = ⟨2/5, 2/5, 1/20, 1/20, 1/10⟩ :=
    resolveWeights_default
  have hform : ∀ (a : JSNum) (s1 : ℝ) (w s2 : ℤ) (m : SpeechRateMethod)
      (b : Bool) (c d : JSNum) (e f : ℤ) (s3 : ℝ) (g s4 : ℤ) (p : ℚ) (s5 : ℤ),
      calculateOverallScore none defaultConfig ⟨a, .fin s1⟩ ⟨w, s2, m⟩
          ⟨b, c, d, e, f, .fin s3⟩ ⟨g, s4⟩ ⟨p, s5⟩ =
        .fin ((round (s1 * (2/5) + (s2 : ℝ) * (2/5) + s3 * (1/20) +
          (s4 : ℝ) * (1/20) + (s5 : ℝ) * (1/10)) : ℤ)) := by
    intro a s1 w s2 m b c d e f s3 g s4 p s5
    simp only [calculateOverallScore, hw]
    simp only [JSNum.mul_fin_fin, JSNum.add_fin_fin, JSNum.rnd_fin,
      JSNum.fin.injEq, Int.cast_inj]
    congr 1
    push_cast
    ring
  refine ⟨hform, ?_, ?_, ?_⟩
  · intro s
    by_cases h1 : 70 ≤ s
    · simp [getEmotionalFeedback, JSNum.geB_fin_fin, h1]
    · by_cases h2 : 40 ≤ s
      · simp [getEmotionalFeedback, JSNum.geB_fin_fin, h1, h2]
      · simp [getEmotionalFeedback, JSNum.geB_fin_fin, h1, h2]
  · rw [hform]
    norm_num
  · simp only [getEmotionalFeedback, JSNum.geB_fin_fin]
    norm_num

-- ===================== C8 =====================

lemma getD_replicate_zero (n j : ℕ) :
    (List.replicate n (0 : ℚ)).getD j 0 = 0 := by
  simp [List.getD, List.getElem?_getD_replicate_default_eq]

lemma frameAbsMean_replicate_zero (n i m : ℕ) :
    frameAbsMean (List.replicate n (0 : ℚ)) i m = 0 := by
  simp [frameAbsMean, getD_replicate_zero]

/-- C8, counterexample: the claim quantifies over every non-empty all-zeros
buffer, but a buffer shorter than one 50ms frame (here: a single zero sample
at 48kHz) produces no frames at all in the fallback path, so
`pauseRatio = 0/max(1,0) = 0`, not 1.0. -/
theorem c8_short_silent_buffer_counterexample :
    (analyzePauses defaultConfig [0] 48000 none).pauseRatio = 0 ∧
      (0 : ℚ) ≠ 1 := by
  have hfs : pauseFrameSize 48000 = 2400 := by
    norm_num [pauseFrameSize]
  have hlc : loopCount ([0] : List ℚ).length 2400 2400 = 0 := by
    norm_num [loopCount]
  constructor
  · simp only [analyzePauses, hfs, hlc]
    norm_num
  · norm_num

/-- C8 (amended): for every all-zeros buffer the volume analyzer (built-in
default thresholds) reports `averageDb = -200` (the epsilon floor
`20*log10(1e-10)`) and score 0; and the pause analyzer's fallback path yields
`pauseRatio = 1.0` provided the buffer spans at least one full 50ms frame
(`pauseFrameSize < length`, with a positive frame size).  For shorter
buffers the frame loop never runs and the ratio is 0 — see the
counterexample. -/
theorem silent_buffer_volume_and_pauses :
    (∀ n : ℕ, 0 < n →
      (analyzeVolume defaultConfig (List.replicate n (0 : ℚ))).averageDb = .fin (-200) ∧
      (analyzeVolume defaultConfig (List.replicate n (0 : ℚ))).score = .fin 0) ∧
    (∀ n sr : ℕ, 0 < pauseFrameSize sr → pauseFrameSize sr < n →
      (analyzePauses defaultConfig (List.replicate n (0 : ℚ)) sr none).pauseRatio = 1) := by
  constructor
  · intro n hn
    have hne : List.replicate n (0 : ℚ) ≠ [] := by
      simp [List.replicate_eq_nil_iff, hn.ne']
    have hth : volumeThresholds defaultConfig = ⟨-35, -15, 0⟩ := rfl
    have hdeg : ((volumeThresholds defaultConfig).ideal : ℝ) ≤
        dbR (List.replicate n (0 : ℚ)) →
        (volumeThresholds defaultConfig).ideal ≠ (volumeThresholds defaultConfig).max := by
      rw [hth]
      intro _
      norm_num
    rw [analyzeVolume_eq_real hne hdeg, dbR_replicate_zero, hth]
    have hrnd : (round ((-200 : ℝ) * 10) : ℤ) = -2000 := by
      rw [show ((-200 : ℝ) * 10) = ((-2000 : ℤ) : ℝ) by norm_num, round_intCast]
    have hsc : volumeScoreIntR ⟨-35, -15, 0⟩ (-200) = 0 := by
      unfold volumeScoreIntR volumeScoreValR
      rw [if_neg (by norm_num), if_neg (by norm_num)]
      norm_num
    constructor
    · show JSNum.fin ((round ((-200 : ℝ) * 10) : ℤ) / 10) = .fin (-200)
      rw [hrnd]
      norm_num
    · show JSNum.fin ((volumeScoreIntR ⟨-35, -15, 0⟩ (-200) : ℤ) : ℝ) = .fin 0
      rw [hsc]
      norm_num
  · intro n sr hfs hlt
    have htot : 1 ≤ loopCount n (pauseFrameSize sr) (pauseFrameSize sr) := by
      unfold loopCount
      rw [Nat.le_div_iff_mul_le hfs]
      omega
    have hpred : (fun k => decide (frameAbsMean (List.replicate n (0 : ℚ))
        (k * pauseFrameSize sr) (pauseFrameSize sr) < 0.01)) = fun _ => true := by
      funext k
      rw [frameAbsMean_replicate_zero]
      norm_num
    simp only [analyzePauses, hpred, List.filter_true, List.length_range,
      List.length_replicate]
    have hmax : max (1 : ℚ)
        ((loopCount n (pauseFrameSize sr) (pauseFrameSize sr) : ℕ) : ℚ) =
        ((loopCount n (pauseFrameSize sr) (pauseFrameSize sr) : ℕ) : ℚ) :=
      max_eq_right (by exact_mod_cast htot)
    rw [hmax, div_self (by exact_mod_cast (Nat.lt_of_lt_of_le Nat.zero_lt_one htot).ne')]
    norm_num

/-- Witness for `silent_buffer_volume_and_pauses` at a 10-sample zero buffer
and 100Hz. -/
theorem silent_buffer_volume_and_pauses_witness :
    ((0 : ℕ) < 10) ∧ (0 < pauseFrameSize 100) ∧ (pauseFrameSize 100 < 10) ∧
    (analyzeVolume defaultConfig (List.replicate 10 (0 : ℚ))).averageDb = .fin (-200) ∧
    (analyzeVolume defaultConfig (List.replicate 10 (0 : ℚ))).score = .fin 0 ∧
    (analyzePauses defaultConfig (List.replicate 10 (0 : ℚ)) 100 none).pauseRatio = 1 := by
  have hfs : pauseFrameSize 100 = 5 := by
    norm_num [pauseFrameSize]
  have h1 : (0 : ℕ) < 10 := by norm_num
  have h2 : 0 < pauseFrameSize 100 := by rw [hfs]; norm_num
  have h3 : pauseFrameSize 100 < 10 := by rw [hfs]; norm_num
  exact ⟨h1, h2, h3,
    (silent_buffer_volume_and_pauses.1 10 h1).1,
    (silent_buffer_volume_and_pauses.1 10 h1).2,
    silent_buffer_volume_and_pauses.2 10 100 h2 h3⟩

-- ===================== C9 =====================

lemma sumSq_map_mul (c : ℚ) (l : List ℚ) :
    sumSq (l.map (fun x => c * x)) = c ^ 2 * sumSq l := by
  induction l with
  | nil => simp [sumSq]
  | cons x xs ih =>
      simp only [sumSq, List.map_cons, List.sum_cons] at ih ⊢
      rw [ih]
      ring

lemma meanSq_map_mul (c : ℚ) (l : List ℚ) :
    meanSq (l.map (fun x => c * x)) = c ^ 2 * meanSq l := by
  unfold meanSq
  rw [sumSq_map_mul, List.length_map]
  ring

lemma dbR_mono_scale (buf : List ℚ) (c : ℚ) (hc : 1 ≤ c) :
    dbR buf ≤ dbR (buf.map (fun x => c * x)) := by
  unfold dbR
  have hc0 : (0 : ℝ) ≤ (c : ℝ) := le_trans zero_le_one (by exact_mod_cast hc)
  have hsq : Real.sqrt ((meanSq (buf.map (fun x => c * x)) : ℚ) : ℝ) =
      (c : ℝ) * Real.sqrt ((meanSq buf : ℚ) : ℝ) := by
    rw [meanSq_map_mul]
    push_cast
    rw [Real.sqrt_mul (by positivity) _]
    rw [Real.sqrt_sq hc0]
  have hle : Real.sqrt ((meanSq buf : ℚ) : ℝ) ≤
      Real.sqrt ((meanSq (buf.map (fun x => c * x)) : ℚ) : ℝ) := by
    rw [hsq]
    exact le_mul_of_one_le_left (Real.sqrt_nonneg _) (by exact_mod_cast hc)
  apply mul_le_mul_of_nonneg_left _ (by norm_num : (0 : ℝ) ≤ 20)
  exact Real.logb_le_logb_of_le (by norm_num : (1 : ℝ) < 10)
    (lt_max_of_lt_right (by norm_num : (0 : ℝ) < 1e-10))
    (max_le_max hle le_rfl)

lemma round_le_of_le {x y : ℝ} (h : x ≤ y) : round x ≤ round y := by
  rw [round_eq, round_eq]
  exact Int.floor_le_floor (by linarith)

/-- C9: scaling a buffer up uniformly by a factor `c > 1` while both dB
readings stay within the `[ideal, max]` band of the resolved (non-degenerate)
volume thresholds can only lower (or keep) the volume score: above `ideal`
the piecewise score is decreasing in the dB reading. -/
theorem volume_score_monotone_scale_up (cfg : List MetricConfig)
    (buf : List ℚ) (c : ℚ) (h0 : buf ≠ []) (hc : 1 < c)
    (hlt : (volumeThresholds cfg).ideal < (volumeThresholds cfg).max)
    (h1 : ((volumeThresholds cfg).ideal : ℝ) ≤ dbR buf)
    (h2 : dbR (buf.map (fun x => c * x)) ≤ ((volumeThresholds cfg).max : ℝ)) :
    ∃ k1 k2 : ℤ, (analyzeVolume cfg buf).score = .fin k1 ∧
      (analyzeVolume cfg (buf.map (fun x => c * x))).score = .fin k2 ∧
      k2 ≤ k1 := by
  have hmap_ne : buf.map (fun x => c * x) ≠ [] := by
    simp [h0]
  have hmono := dbR_mono_scale buf c hc.le
  have h1' : ((volumeThresholds cfg).ideal : ℝ) ≤ dbR (buf.map (fun x => c * x)) :=
    le_trans h1 hmono
  have hne : (volumeThresholds cfg).ideal ≠ (volumeThresholds cfg).max :=
    ne_of_lt hlt
  rw [analyzeVolume_eq_real h0 (fun _ => hne),
    analyzeVolume_eq_real hmap_ne (fun _ => hne)]
  refine ⟨_, _, rfl, rfl, ?_⟩
  unfold volumeScoreIntR volumeScoreValR
  rw [if_pos h1, if_pos h1']
  have hd : (0 : ℝ) < ((volumeThresholds cfg).max : ℝ) -
      ((volumeThresholds cfg).ideal : ℝ) := by
    rw [sub_pos]
    exact_mod_cast hlt
  have hval : 100 - (dbR (buf.map (fun x => c * x)) -
        ((volumeThresholds cfg).ideal : ℝ)) /
        (((volumeThresholds cfg).max : ℝ) - ((volumeThresholds cfg).ideal : ℝ)) * 30 ≤
      100 - (dbR buf - ((volumeThresholds cfg).ideal : ℝ)) /
        (((volumeThresholds cfg).max : ℝ) - ((volumeThresholds cfg).ideal : ℝ)) * 30 := by
    have hdiv : (dbR buf - ((volumeThresholds cfg).ideal : ℝ)) /
          (((volumeThresholds cfg).max : ℝ) - ((volumeThresholds cfg).ideal : ℝ)) ≤
        (dbR (buf.map (fun x => c * x)) - ((volumeThresholds cfg).ideal : ℝ)) /
          (((volumeThresholds cfg).max : ℝ) - ((volumeThresholds cfg).ideal : ℝ)) :=
      (div_le_div_right hd).2 (by linarith)
    nlinarith
  exact min_le_min le_rfl (max_le_max le_rfl (round_le_of_le hval))

/-- Witness for `volume_score_monotone_scale_up`: the buffer `[1/2]`
(about -6dB) scaled by 2 to `[1]` (0dB), both within the default
`[-15, 0]` band. -/
theorem volume_score_monotone_scale_up_witness :
    (([1/2] : List ℚ) ≠ []) ∧ ((1 : ℚ) < 2) ∧
    ((volumeThresholds defaultConfig).ideal < (volumeThresholds defaultConfig).max) ∧
    (((volumeThresholds defaultConfig).ideal : ℝ) ≤ dbR [1/2]) ∧
    (dbR (([1/2] : List ℚ).map (fun x => (2 : ℚ) * x)) ≤
      ((volumeThresholds defaultConfig).max : ℝ)) ∧
    (∃ k1 k2 : ℤ, (analyzeVolume defaultConfig [1/2]).score = .fin k1 ∧
      (analyzeVolume defaultConfig (([1/2] : List ℚ).map (fun x => (2 : ℚ) * x))).score
        = .fin k2 ∧ k2 ≤ k1) := by
  have hth : volumeThresholds defaultConfig = ⟨-35, -15, 0⟩ := rfl
  have h0 : ([1/2] : List ℚ) ≠ [] := by simp
  have hc : (1 : ℚ) < 2 := by norm_num
  have hlt : (volumeThresholds defaultConfig).ideal <
      (volumeThresholds defaultConfig).max := by
    rw [hth]
    norm_num
  have hdbhalf : dbR [1/2] = 20 * Real.logb 10 (1/2) := by
    have hms : ((meanSq [1/2] : ℚ) : ℝ) = (1/2 : ℝ) ^ 2 := by
      norm_num [meanSq, sumSq]
    unfold dbR
    rw [hms, Real.sqrt_sq (by norm_num : (0 : ℝ) ≤ 1/2),
      max_eq_left (by norm_num : (1e-10 : ℝ) ≤ 1/2)]
  have hlog2 : Real.logb 10 2 ≤ 3/4 := by
    rw [Real.logb, div_le_iff (Real.log_pos (by norm_num))]
    have h16 : Real.log 16 = 4 * Real.log 2 := by
      rw [show (16 : ℝ) = 2 ^ (4 : ℕ) by norm_num, Real.log_pow]
      push_cast
      ring
    have h1000 : Real.log 1000 = 3 * Real.log 10 := by
      rw [show (1000 : ℝ) = 10 ^ (3 : ℕ) by norm_num, Real.log_pow]
      push_cast
      ring
    have hle := Real.log_le_log (by norm_num : (0 : ℝ) < 16)
      (by norm_num : (16 : ℝ) ≤ 1000)
    rw [h16, h1000] at hle
    linarith
  have hloghalf : Real.logb 10 (1/2) = -Real.logb 10 2 := by
    rw [show (1/2 : ℝ) = 2⁻¹ by norm_num, Real.logb_inv]
  have h1 : ((volumeThresholds defaultConfig).ideal : ℝ) ≤ dbR [1/2] := by
    rw [hth, hdbhalf, hloghalf]
    push_cast
    nlinarith
  have hmap : ([1/2] : List ℚ).map (fun x => (2 : ℚ) * x) = [1] := by
    norm_num
  have h2 : dbR (([1/2] : List ℚ).map (fun x => (2 : ℚ) * x)) ≤
      ((volumeThresholds defaultConfig).max : ℝ) := by
    rw [hmap, hth]
    have hone := dbR_replicate_one 1 one_pos
    simp only [List.replicate] at hone
    rw [hone]
    norm_num
  exact ⟨h0, hc, hlt, h1, h2,
    volume_score_monotone_scale_up defaultConfig [1/2] 2 h0 hc hlt h1 h2⟩

-- ===================== C3 =====================

/-- "Is a finite integer score in [0,100]" for a JS number. -/
def intScoreIn (x : JSNum) : Prop :=
  ∃ k : ℤ, x = .fin (k : ℝ) ∧ 0 ≤ k ∧ k ≤ 100

lemma clamp_int_bounds (k : ℤ) :
    0 ≤ min 100 (max 0 k) ∧ min 100 (max 0 k) ≤ 100 :=
  ⟨le_min (by norm_num) (le_max_left 0 k), min_le_left _ _⟩

lemma clamp_cast (k : ℤ) :
    min (100 : ℝ) (max 0 (k : ℝ)) = ((min 100 (max 0 k) : ℤ) : ℝ) := by
  push_cast
  rfl

lemma volumeScoreIntR_bounds (t : Thresholds) (db : ℝ) :
    0 ≤ volumeScoreIntR t db ∧ volumeScoreIntR t db ≤ 100 := by
  unfold volumeScoreIntR
  exact clamp_int_bounds _

lemma analyzeVolume_intScoreIn (cfg : List MetricConfig) (buf : List ℚ)
    (h : buf ≠ [])
    (hdeg : ((volumeThresholds cfg).ideal : ℝ) ≤ dbR buf →
      (volumeThresholds cfg).ideal ≠ (volumeThresholds cfg).max) :
    intScoreIn (analyzeVolume cfg buf).score := by
  rw [analyzeVolume_eq_real h hdeg]
  exact ⟨volumeScoreIntR (volumeThresholds cfg) (dbR buf), rfl,
    volumeScoreIntR_bounds _ _⟩

lemma speechRateScore_bounds (t : Thresholds) (w : ℤ) :
    0 ≤ speechRateScore t w ∧ speechRateScore t w ≤ 100 := by
  unfold speechRateScore
  exact clamp_int_bounds _

lemma analyzeSpeechRate_score_bounds (cfg : List MetricConfig) (buf : List ℚ)
    (sr : ℕ) (vad : Option VADMetrics) :
    0 ≤ (analyzeSpeechRate cfg buf sr vad).score ∧
      (analyzeSpeechRate cfg buf sr vad).score ≤ 100 := by
  rcases vad with _ | v
  · exact speechRateScore_bounds _ _
  · simp only [analyzeSpeechRate]
    split
    · exact speechRateScore_bounds _ _
    · exact speechRateScore_bounds _ _

lemma analyzeResponseTime_score_bounds (cfg : List MetricConfig)
    (buf : List ℚ) (sr : ℕ) :
    0 ≤ (analyzeResponseTime cfg buf sr).score ∧
      (analyzeResponseTime cfg buf sr).score ≤ 100 := by
  simp only [analyzeResponseTime]
  exact clamp_int_bounds _

lemma analyzePauses_score_bounds (cfg : List MetricConfig) (buf : List ℚ)
    (sr : ℕ) (vad : Option VADMetrics) :
    0 ≤ (analyzePauses cfg buf sr vad).score ∧
      (analyzePauses cfg buf sr vad).score ≤ 100 := by
  simp only [analyzePauses]
  exact clamp_int_bounds _

lemma analyzeVolume_averageDb_fin (cfg : List MetricConfig) (buf : List ℚ)
    (h : buf ≠ []) :
    (analyzeVolume cfg buf).averageDb =
      .fin (((round (dbR buf * 10) : ℤ) : ℝ) / 10) := by
  simp only [analyzeVolume, volumeDb_fin h, JSNum.mul_fin_fin, JSNum.rnd_fin]
  rw [JSNum.div_fin_fin _ _ (by norm_num : (10 : ℝ) ≠ 0)]

lemma analyzeAcceleration_intScoreIn (cfg : List MetricConfig) (buf : List ℚ)
    (sr : ℕ) (vad : Option VADMetrics)
    (h1 : buf.take (buf.length / 2) ≠ []) (h2 : buf.drop (buf.length / 2) ≠ []) :
    intScoreIn (analyzeAcceleration cfg buf sr vad).score := by
  simp only [analyzeAcceleration, analyzeVolume_averageDb_fin cfg _ h1,
    analyzeVolume_averageDb_fin cfg _ h2, JSNum.sub_fin_fin, JSNum.mul_fin_fin,
    JSNum.add_fin_fin, JSNum.jmax_fin_fin, JSNum.rnd_fin, JSNum.jmin_fin_fin]
  rw [clamp_cast]
  exact ⟨_, rfl, clamp_int_bounds _⟩

lemma calculateOverallScore_intScoreIn (settings : Option MetricSettings)
    (cfg : List MetricConfig) (vol : VolumeResult) (rate : SpeechRateResult)
    (acc : AccelerationResult) (rt : ResponseTimeResult) (pz : PauseResult)
    (hv : intScoreIn vol.score) (ha : intScoreIn acc.score)
    (hr : 0 ≤ rate.score ∧ rate.score ≤ 100)
    (ht : 0 ≤ rt.score ∧ rt.score ≤ 100)
    (hp : 0 ≤ pz.score ∧ pz.score ≤ 100)
    (hw1 : 0 ≤ (resolveWeights settings cfg).volume)
    (hw2 : 0 ≤ (resolveWeights settings cfg).speechRate)
    (hw3 : 0 ≤ (resolveWeights settings cfg).acceleration)
    (hw4 : 0 ≤ (resolveWeights settings cfg).responseTime)
    (hw5 : 0 ≤ (resolveWeights settings cfg).pauses)
    (hwsum : (resolveWeights settings cfg).volume +
      (resolveWeights settings cfg).speechRate +
      (resolveWeights settings cfg).acceleration +
      (resolveWeights settings cfg).responseTime +
      (resolveWeights settings cfg).pauses ≤ 1) :
    intScoreIn (calculateOverallScore settings cfg vol rate acc rt pz) := by
  obtain ⟨k1, hk1, hk1a, hk1b⟩ := hv
  obtain ⟨k3, hk3, hk3a, hk3b⟩ := ha
  obtain ⟨hra, hrb⟩ := hr
  obtain ⟨hta, htb⟩ := ht
  obtain ⟨hpa, hpb⟩ := hp
  set w := resolveWeights settings cfg with hwdef
  simp only [calculateOverallScore, ← hwdef, hk1, hk3, JSNum.mul_fin_fin,
    JSNum.add_fin_fin, JSNum.rnd_fin]
  set S : ℝ := (k1 : ℝ) * (w.volume : ℝ) + (rate.score : ℝ) * (w.speechRate : ℝ) +
    (k3 : ℝ) * (w.acceleration : ℝ) + (rt.score : ℝ) * (w.responseTime : ℝ) +
    (pz.score : ℝ) * (w.pauses : ℝ) with hS
  refine ⟨round S, rfl, ?_, ?_⟩
  · have h0 : (0 : ℝ) ≤ S := by
      rw [hS]
      have c1 : (0 : ℝ) ≤ (k1 : ℝ) := by exact_mod_cast hk1a
      have c2 : (0 : ℝ) ≤ (rate.score : ℝ) := by exact_mod_cast hra
      have c3 : (0 : ℝ) ≤ (k3 : ℝ) := by exact_mod_cast hk3a
      have c4 : (0 : ℝ) ≤ (rt.score : ℝ) := by exact_mod_cast hta
      have c5 : (0 : ℝ) ≤ (pz.score : ℝ) := by exact_mod_cast hpa
      have d1 : (0 : ℝ) ≤ (w.volume : ℝ) := by exact_mod_cast hw1
      have d2 : (0 : ℝ) ≤ (w.speechRate : ℝ) := by exact_mod_cast hw2
      have d3 : (0 : ℝ) ≤ (w.acceleration : ℝ) := by exact_mod_cast hw3
      have d4 : (0 : ℝ) ≤ (w.responseTime : ℝ) := by exact_mod_cast hw4
      have d5 : (0 : ℝ) ≤ (w.pauses : ℝ) := by exact_mod_cast hw5
      positivity
    calc (0 : ℤ) = round (0 : ℝ) := by rw [round_zero]
      _ ≤ round S := round_le_of_le h0
  · have h100 : S ≤ 100 := by
      rw [hS]
      have d1 : (0 : ℝ) ≤ (w.volume : ℝ) := by exact_mod_cast hw1
      have d2 : (0 : ℝ) ≤ (w.speechRate : ℝ) := by exact_mod_cast hw2
      have d3 : (0 : ℝ) ≤ (w.acceleration : ℝ) := by exact_mod_cast hw3
      have d4 : (0 : ℝ) ≤ (w.responseTime : ℝ) := by exact_mod_cast hw4
      have d5 : (0 : ℝ) ≤ (w.pauses : ℝ) := by exact_mod_cast hw5
      have e1 : (k1 : ℝ) * (w.volume : ℝ) ≤ 100 * (w.volume : ℝ) :=
        mul_le_mul_of_nonneg_right (by exact_mod_cast hk1b) d1
      have e2 : (rate.score : ℝ) * (w.speechRate : ℝ) ≤ 100 * (w.speechRate : ℝ) :=
        mul_le_mul_of_nonneg_right (by exact_mod_cast hrb) d2
      have e3 : (k3 : ℝ) * (w.acceleration : ℝ) ≤ 100 * (w.acceleration : ℝ) :=
        mul_le_mul_of_nonneg_right (by exact_mod_cast hk3b) d3
      have e4 : (rt.score : ℝ) * (w.responseTime : ℝ) ≤ 100 * (w.responseTime : ℝ) :=
        mul_le_mul_of_nonneg_right (by exact_mod_cast htb) d4
      have e5 : (pz.score : ℝ) * (w.pauses : ℝ) ≤ 100 * (w.pauses : ℝ) :=
        mul_le_mul_of_nonneg_right (by exact_mod_cast hpb) d5
      have hsum : (w.volume : ℝ) + (w.speechRate : ℝ) + (w.acceleration : ℝ) +
          (w.responseTime : ℝ) + (w.pauses : ℝ) ≤ 1 := by exact_mod_cast hwsum
      nlinarith
    calc round S ≤ round (100 : ℝ) := round_le_of_le h100
      _ = 100 := by norm_num [round_ofNat]

/-- C3 (amended): on any buffer of at least two samples, with the built-in
default thresholds, every per-metric score of the full analysis is a finite
integer in [0,100]; the overall score is `round` of the weighted sum WITHOUT
clamping, and it lies in [0,100] whenever the resolved weights are
non-negative and sum to at most 1 (true of the default configuration).  A
settings store whose enabled weights sum above 100 produces an overall score
above 100 — see the counterexample. -/
theorem analysis_scores_in_range (buf : List ℚ) (sr : ℕ)
    (settings : Option MetricSettings) (vad : Option VADMetrics)
    (hlen : 2 ≤ buf.length)
    (hw1 : 0 ≤ (resolveWeights settings defaultConfig).volume)
    (hw2 : 0 ≤ (resolveWeights settings defaultConfig).speechRate)
    (hw3 : 0 ≤ (resolveWeights settings defaultConfig).acceleration)
    (hw4 : 0 ≤ (resolveWeights settings defaultConfig).responseTime)
    (hw5 : 0 ≤ (resolveWeights settings defaultConfig).pauses)
    (hwsum : (resolveWeights settings defaultConfig).volume +
      (resolveWeights settings defaultConfig).speechRate +
      (resolveWeights settings defaultConfig).acceleration +
      (resolveWeights settings defaultConfig).responseTime +
      (resolveWeights settings defaultConfig).pauses ≤ 1) :
    intScoreIn (analyzeAudio defaultConfig settings buf sr vad).volume.score ∧
    (0 ≤ (analyzeAudio defaultConfig settings buf sr vad).speechRate.score ∧
      (analyzeAudio defaultConfig settings buf sr vad).speechRate.score ≤ 100) ∧
    intScoreIn (analyzeAudio defaultConfig settings buf sr vad).acceleration.score ∧
    (0 ≤ (analyzeAudio defaultConfig settings buf sr vad).responseTime.score ∧
      (analyzeAudio defaultConfig settings buf sr vad).responseTime.score ≤ 100) ∧
    (0 ≤ (analyzeAudio defaultConfig settings buf sr vad).pauses.score ∧
      (analyzeAudio defaultConfig settings buf sr vad).pauses.score ≤ 100) ∧
    intScoreIn (analyzeAudio defaultConfig settings buf sr vad).overallScore := by
  have hne : buf ≠ [] := by
    intro h
    rw [h] at hlen
    simp at hlen
  have hth : volumeThresholds defaultConfig = ⟨-35, -15, 0⟩ := rfl
  have hdeg : ∀ b : List ℚ, ((volumeThresholds defaultConfig).ideal : ℝ) ≤ dbR b →
      (volumeThresholds defaultConfig).ideal ≠ (volumeThresholds defaultConfig).max := by
    rw [hth]
    intro _ _
    norm_num
  have htake : buf.take (buf.length / 2) ≠ [] := by
    apply List.ne_nil_of_length_pos
    rw [List.length_take]
    omega
  have hdrop : buf.drop (buf.length / 2) ≠ [] := by
    apply List.ne_nil_of_length_pos
    rw [List.length_drop]
    omega
  simp only [analyzeAudio]
  exact ⟨analyzeVolume_intScoreIn _ _ hne (hdeg buf),
    analyzeSpeechRate_score_bounds _ _ _ _,
    analyzeAcceleration_intScoreIn _ _ _ _ htake hdrop,
    analyzeResponseTime_score_bounds _ _ _,
    analyzePauses_score_bounds _ _ _ _,
    calculateOverallScore_intScoreIn settings defaultConfig _ _ _ _ _
      (analyzeVolume_intScoreIn _ _ hne (hdeg buf))
      (analyzeAcceleration_intScoreIn _ _ _ _ htake hdrop)
      (analyzeSpeechRate_score_bounds _ _ _ _)
      (analyzeResponseTime_score_bounds _ _ _)
      (analyzePauses_score_bounds _ _ _ _) hw1 hw2 hw3 hw4 hw5 hwsum⟩

/-- Witness for `analysis_scores_in_range` on the two-sample buffer `[1, 1]`
with the default stores. -/
theorem analysis_scores_in_range_witness :
    (2 ≤ ([1, 1] : List ℚ).length) ∧
    (0 ≤ (resolveWeights none defaultConfig).volume) ∧
    ((resolveWeights none defaultConfig).volume +
      (resolveWeights none defaultConfig).speechRate +
      (resolveWeights none defaultConfig).acceleration +
      (resolveWeights none defaultConfig).responseTime +
      (resolveWeights none defaultConfig).pauses ≤ 1) ∧
    (intScoreIn (analyzeAudio defaultConfig none [1, 1] 100 none).volume.score ∧
      intScoreIn (analyzeAudio defaultConfig none [1, 1] 100 none).overallScore) := by
  have hlen : 2 ≤ ([1, 1] : List ℚ).length := by norm_num
  have hw := resolveWeights_default
  have hw1 : 0 ≤ (resolveWeights none defaultConfig).volume := by
    rw [hw]
    norm_num
  have hw2 : 0 ≤ (resolveWeights none defaultConfig).speechRate := by
    rw [hw]
    norm_num
  have hw3 : 0 ≤ (resolveWeights none defaultConfig).acceleration := by
    rw [hw]
    norm_num
  have hw4 : 0 ≤ (resolveWeights none defaultConfig).responseTime := by
    rw [hw]
    norm_num
  have hw5 : 0 ≤ (resolveWeights none defaultConfig).pauses := by
    rw [hw]
    norm_num
  have hwsum : (resolveWeights none defaultConfig).volume +
      (resolveWeights none defaultConfig).speechRate +
      (resolveWeights none defaultConfig).acceleration +
      (resolveWeights none defaultConfig).responseTime +
      (resolveWeights none defaultConfig).pauses ≤ 1 := by
    rw [hw]
    norm_num
  have hmain := analysis_scores_in_range [1, 1] 100 none none hlen hw1 hw2 hw3
    hw4 hw5 hwsum
  exact ⟨hlen, hw1, hwsum, hmain.1, hmain.2.2.2.2.2⟩

/-- The ten-sample all-ones buffer of the C3 counterexample (0dB RMS). -/
def onesBuf : List ℚ := [1, 1, 1, 1, 1, 1, 1, 1, 1, 1]

/-- Its halves under `analyzeAcceleration`'s midpoint split. -/
def halfOnes : List ℚ := [1, 1, 1, 1, 1]

/-- An `audio_metric_settings` record with only volume enabled, at weight
200: its enabled weights sum to 200 > 100, and the code divides by 100
without renormalizing, resolving a volume weight of 2.0. -/
def maxedSettings : MetricSettings :=
  ⟨⟨true, 200⟩, ⟨false, 0⟩, ⟨false, 0⟩, ⟨false, 0⟩, ⟨false, 0⟩⟩

lemma resolveWeights_maxed :
    resolveWeights (some maxedSettings) defaultConfig = ⟨2, 0, 0, 0, 0⟩ := by
  have he : enabledTotal maxedSettings = 200 := by
    norm_num [enabledTotal, settingsEntries, maxedSettings, List.filter]
  simp only [resolveWeights, he]
  rw [if_pos (by norm_num : (0 : ℚ) < 200)]
  norm_num [maxedSettings]

lemma volumeScoreIntR_default_at_zero : volumeScoreIntR ⟨-35, -15, 0⟩ 0 = 70 := by
  unfold volumeScoreIntR volumeScoreValR
  norm_num

lemma volume_ones_eval (n : ℕ) (hn : 0 < n) :
    analyzeVolume defaultConfig (List.replicate n (1 : ℚ)) =
      ⟨.fin 0, .fin 70⟩ := by
  have hne : List.replicate n (1 : ℚ) ≠ [] := by
    simp [List.replicate_eq_nil_iff, hn.ne']
  have hth : volumeThresholds defaultConfig = ⟨-35, -15, 0⟩ := rfl
  have hdeg : ((volumeThresholds defaultConfig).ideal : ℝ) ≤
      dbR (List.replicate n (1 : ℚ)) →
      (volumeThresholds defaultConfig).ideal ≠ (volumeThresholds defaultConfig).max := by
    rw [hth]
    intro _
    norm_num
  rw [analyzeVolume_eq_real hne hdeg, dbR_replicate_one n hn, hth,
    volumeScoreIntR_default_at_zero]
  have hr : (round ((0 : ℝ) * 10) : ℤ) = 0 := by
    rw [show ((0 : ℝ) * 10) = 0 by norm_num, round_zero]
  rw [hr]
  norm_num

lemma srs_at_zero : speechRateScore ⟨90, 150, 220⟩ 0 = 0 := by
  unfold speechRateScore
  norm_num

lemma detect_onesBuf : detectSyllablesFromPeaks onesBuf 100 = 0 := by
  have hE : energies onesBuf 100 = [1, 1, 1, 1, 1, 1, 1, 1] := by
    norm_num [energies, loopCount, frameSize20, hopOf, frameEnergy, onesBuf,
      List.range_succ, List.getD]
  rw [detectSyllablesFromPeaks, hE]
  norm_num [countPeaks, peakStep, List.range_succ, List.getD, listMax]

lemma detect_halfOnes : detectSyllablesFromPeaks halfOnes 100 = 0 := by
  have hE : energies halfOnes 100 = [1, 1, 1] := by
    norm_num [energies, loopCount, frameSize20, hopOf, frameEnergy, halfOnes,
      List.range_succ, List.getD]
  rw [detectSyllablesFromPeaks, hE]
  norm_num [countPeaks, peakStep, List.range_succ, List.getD, listMax]

lemma rate_onesBuf :
    analyzeSpeechRate defaultConfig onesBuf 100 none = ⟨0, 0, .energyPeaks⟩ := by
  have hth : speechRateThresholds defaultConfig = ⟨90, 150, 220⟩ := rfl
  simp only [analyzeSpeechRate, detect_onesBuf, hth]
  norm_num [wpmOf, speechRateScore, onesBuf]

lemma rate_halfOnes :
    analyzeSpeechRate defaultConfig halfOnes 100 none = ⟨0, 0, .energyPeaks⟩ := by
  have hth : speechRateThresholds defaultConfig = ⟨90, 150, 220⟩ := rfl
  simp only [analyzeSpeechRate, detect_halfOnes, hth]
  norm_num [wpmOf, speechRateScore, halfOnes]

lemma rt_onesBuf_score :
    (analyzeResponseTime defaultConfig onesBuf 100).score = 100 := by
  have hfloor : calculateAdaptiveNoiseFloor onesBuf 100 = 3 := by
    simp only [calculateAdaptiveNoiseFloor]
    rw [show ⌊((100 : ℕ) : ℚ) * 0.1⌋₊ = 10 by norm_num]
    rw [show min 10 onesBuf.length = 10 from rfl]
    rw [show onesBuf.take 10 = onesBuf from rfl]
    rw [if_neg (by decide : ¬onesBuf.isEmpty = true)]
    have hs : sumSq onesBuf = 10 := by
      norm_num [sumSq, onesBuf]
    rw [hs, show ((onesBuf.length : ℕ) : ℝ) = 10 by norm_num [onesBuf]]
    rw [show (((10 : ℚ) : ℝ) / (10 : ℝ)) = 1 by norm_num, Real.sqrt_one]
    norm_num
  have hbelow : ∀ x ∈ onesBuf, |(x : ℝ)| ≤ calculateAdaptiveNoiseFloor onesBuf 100 := by
    intro x hx
    rw [hfloor]
    have : x = 1 := by
      simpa [onesBuf] using hx
    rw [this]
    norm_num
  exact (responseTime_silent_aux onesBuf 100 hbelow).2

lemma pauses_onesBuf_score :
    (analyzePauses defaultConfig onesBuf 100 none).score = 100 := by
  have hfs : pauseFrameSize 100 = 5 := by
    norm_num [pauseFrameSize]
  have hlc : loopCount onesBuf.length 5 5 = 1 := by
    norm_num [loopCount, onesBuf]
  have hfm : frameAbsMean onesBuf 0 5 = 1 := by
    norm_num [frameAbsMean, onesBuf, List.range_succ, List.getD]
  simp only [analyzePauses, hfs, hlc]
  rw [show List.range 1 = [0] from rfl]
  have hfm0 : frameAbsMean onesBuf (0 * 5) 5 = 1 := by
    rw [show ((0 : ℕ) * 5) = 0 from rfl]
    exact hfm
  have hfilter : List.filter
      (fun k => decide (frameAbsMean onesBuf (k * 5) 5 < 0.01)) [0] = [] := by
    simp only [List.filter, hfm0, hfm]
    norm_num
  rw [hfilter]
  norm_num [round_ofNat]

lemma accel_onesBuf_score :
    (analyzeAcceleration defaultConfig onesBuf 100 none).score = .fin 50 := by
  simp only [analyzeAcceleration]
  rw [show onesBuf.take (onesBuf.length / 2) = halfOnes from rfl,
    show onesBuf.drop (onesBuf.length / 2) = halfOnes from rfl]
  rw [show halfOnes = List.replicate 5 (1 : ℚ) from rfl,
    volume_ones_eval 5 (by norm_num)]
  rw [show List.replicate 5 (1 : ℚ) = halfOnes from rfl, rate_halfOnes]
  simp only [JSNum.sub_fin_fin, JSNum.mul_fin_fin, JSNum.add_fin_fin,
    JSNum.jmax_fin_fin, JSNum.rnd_fin, JSNum.jmin_fin_fin]
  norm_num [round_ofNat]

/-- C3, counterexample: on the valid ten-sample all-ones buffer at 100Hz, a
resolved settings store with only volume enabled at weight 200 (the code
divides stored weights by 100 but never renormalizes by their total) makes
the full analysis return an overall score of 140, outside [0,100]: the
volume score is 70 and its resolved weight 2.0, and `calculateOverallScore`
does not clamp its result. -/
theorem c3_overall_exceeds_100_counterexample :
    (analyzeAudio defaultConfig (some maxedSettings) onesBuf 100 none).overallScore
      = .fin 140 ∧ ¬((140 : ℝ) ≤ 100) := by
  refine ⟨?_, by norm_num⟩
  simp only [analyzeAudio, calculateOverallScore, resolveWeights_maxed]
  rw [show onesBuf = List.replicate 10 (1 : ℚ) from rfl,
    volume_ones_eval 10 (by norm_num)]
  rw [show List.replicate 10 (1 : ℚ) = onesBuf from rfl]
  rw [rate_onesBuf, rt_onesBuf_score, pauses_onesBuf_score, accel_onesBuf_score]
  simp only [JSNum.mul_fin_fin, JSNum.add_fin_fin, JSNum.rnd_fin]
  norm_num [round_ofNat]

end AudioAnalysis
